import Mathlib

/-!
# Verification of the Silvair UART modem common library

A shallow embedding of the Python sources in
`silvair_uart_common_libs` (`uart_common_classes.py`, `messages.py`,
`message_types.py`, `message_factory.py`), together with theorems about
the wire-frame codec (preamble scan, CRC-16 validation,
resynchronization) and the per-opcode message codecs.

Bytes are modelled as `Nat` (with explicit `< 256` hypotheses where a
property depends on byte range), byte buffers as `List Nat`, Python
`io.BytesIO` streams as the list of not-yet-consumed bytes, and fallible
Python code (raised exceptions) as `Except PyErr`.
-/

namespace SilvairUart

/-- Python exceptions that the library's codec paths can raise. -/
inductive PyErr
  | invalidOpcode   -- messages.InvalidOpcode
  | invalidLen      -- messages.InvalidLen
  | valueError      -- ValueError from an IntEnum lookup (e.g. ModelID.from_bytes)
  | assertionError  -- assert False in an unimplemented base-class method
  deriving DecidableEq, Repr

/-- `int.from_bytes(bs, byteorder='little', signed=False)` for a byte list
of any length (empty list gives 0, as in Python). -/
def le_bytes : List Nat → Nat
  | [] => 0
  | b :: rest => b + 256 * le_bytes rest

/-- The little-endian byte list of width `w` for `n`, i.e. the value written
by a successful `n.to_bytes(w, byteorder='little', signed=False)`. -/
def leBytesOf : Nat → Nat → List Nat
  | 0, _ => []
  | w + 1, n => (n % 256) :: leBytesOf w (n / 256)

/-- `n.to_bytes(w, byteorder='little', signed=False)`: `none` models the
`OverflowError` raised when `n` does not fit in `w` bytes. -/
def toBytesLE (w n : Nat) : Option (List Nat) :=
  if n < 256 ^ w then some (leBytesOf w n) else none

/-- `stream.read(n)` on an `io.BytesIO` holding `s`: returns the bytes read
and the rest of the stream.  A negative argument reads to end-of-file,
mirroring `io.BytesIO.read`. -/
def readBytes (n : Int) (s : List Nat) : List Nat × List Nat :=
  if n < 0 then (s, []) else (s.take n.toNat, s.drop n.toNat)

/-! ## CRC engine

`UartAdapter.calculate_crc` builds its checksum function with
`crcmod.mkCrcFun(0x18005, rev=False, initCrc=0xFFFF, xorOut=0x0000)`:
CRC-16, polynomial 0x8005, MSB-first (no reflection), initial register
0xFFFF, no final XOR. -/

/-- One shift step of the MSB-first CRC-16/0x8005 register update. -/
def crc16_round (c : Nat) : Nat :=
  if 32768 ≤ c then Nat.xor (c * 2 % 65536) 0x8005 else c * 2 % 65536

/-- Absorb one input byte into the CRC register: XOR it into the top byte,
then shift eight times. -/
def crc16_byte (c b : Nat) : Nat :=
  crc16_round^[8] (Nat.xor c (b * 256))

/-- `UartAdapter.calculate_crc`: the CRC-16 of a byte sequence. -/
def crc16 (data : List Nat) : Nat :=
  data.foldl crc16_byte 0xFFFF

/-- `UartAdapter.calculate_crc_bytes`: the CRC as two little-endian bytes
(`to_bytes(2, 'little')`; `none` would model its `OverflowError`). -/
def calculate_crc_bytes (data : List Nat) : Option (List Nat) :=
  toBytesLE 2 (crc16 data)

/-! ## Frame reassembler (`UartAdapter.extract_frames`) -/

/-- The first suffix of `l` that starts with the two-byte preamble
`0xAA 0x55`, if any. -/
def find_preamble_suffix : List Nat → Option (List Nat)
  | [] => none
  | b :: rest =>
    if b = 0xAA ∧ rest.head? = some 0x55 then some (b :: rest)
    else find_preamble_suffix rest

/-- `UartAdapter.eat_bytes_until_preamble`: pops bytes until the buffer
starts with the preamble.  When no preamble is found the Python code has
consumed the whole buffer and returns the popped ("orphaned") bytes, which
are exactly the original buffer; so the result is the first
preamble-starting suffix when one exists, and the input buffer otherwise. -/
def eat_bytes_until_preamble (l : List Nat) : List Nat :=
  match find_preamble_suffix l with
  | some s => s
  | none => l

theorem find_preamble_suffix_length_le :
    ∀ l s, find_preamble_suffix l = some s → s.length ≤ l.length := by
  intro l
  induction l with
  | nil => intro s h; simp [find_preamble_suffix] at h
  | cons b rest ih =>
    intro s h
    simp only [find_preamble_suffix] at h
    split at h
    · cases h; rfl
    · exact Nat.le_succ_of_le (ih s h)

theorem eat_bytes_length_le (l : List Nat) :
    (eat_bytes_until_preamble l).length ≤ l.length := by
  unfold eat_bytes_until_preamble
  cases h : find_preamble_suffix l with
  | none => exact le_rfl
  | some s => exact find_preamble_suffix_length_le l s h

/-- `UartAdapter.extract_frames`: extract complete CRC-validated frames
(`LENGTH || OPCODE || PAYLOAD`, preamble and CRC stripped) from a raw
buffer, returning the extracted frames and the unconsumed remainder.
Mirrors the source: scan to the preamble; stop below 6 bytes or below
`6 + LENGTH` bytes; slice the candidate `[0 : 4+LENGTH+2)`; compare
`calculate_crc(frame[2 : 4+LENGTH])` with the trailing little-endian CRC;
on success emit `frame[2 : len-2]` and recurse on the bytes after the
frame if any remain; on failure return with the bytes after the frame as
the remainder. -/
def extract_frames (raw : List Nat) : List (List Nat) × List Nat :=
  let data := eat_bytes_until_preamble raw
  if data.length < 6 then ([], data)
  else
    let data_len := le_bytes ((data.drop 2).take 1)
    if data.length < 6 + data_len then ([], data)
    else
      let frame := data.take (4 + data_len + 2)
      let remaining := data.drop (6 + data_len)
      let expected_crc := crc16 ((frame.drop 2).take (2 + data_len))
      let actual_crc := le_bytes (frame.drop (frame.length - 2))
      let body := (frame.drop 2).take (frame.length - 4)
      if expected_crc = actual_crc then
        if _h3 : 0 < remaining.length then
          let res := extract_frames remaining
          (body :: res.1, res.2)
        else ([body], remaining)
      else ([], remaining)
termination_by raw.length
decreasing_by
  have h := eat_bytes_length_le raw
  have h3 : 0 < (List.drop
      (6 + le_bytes (List.take 1 (List.drop 2 (eat_bytes_until_preamble raw))))
      (eat_bytes_until_preamble raw)).length := _h3
  show (List.drop
      (6 + le_bytes (List.take 1 (List.drop 2 (eat_bytes_until_preamble raw))))
      (eat_bytes_until_preamble raw)).length < raw.length
  simp only [List.length_drop] at h3 ⊢
  omega

/-- `UartAdapter.write_uart_frame` with `send_raw=False`: the byte chunk
queued on the wire for a payload-frame `uart_frame`: preamble, then the
frame, then its two-byte little-endian CRC. -/
def write_uart_frame (uart_frame : List Nat) : Option (List Nat) :=
  match calculate_crc_bytes uart_frame with
  | none => none
  | some crc => some (0xAA :: 0x55 :: (uart_frame ++ crc))

/-! ## Frame reassembler unfolding lemmas -/

theorem le_bytes_singleton (b : Nat) : le_bytes [b] = b := by
  simp [le_bytes]

theorem le_bytes_pair (b0 b1 : Nat) : le_bytes [b0, b1] = b0 + 256 * b1 := by
  simp [le_bytes]

theorem eat_bytes_preamble (xs : List Nat) :
    eat_bytes_until_preamble (0xAA :: 0x55 :: xs) = 0xAA :: 0x55 :: xs := by
  simp [eat_bytes_until_preamble, find_preamble_suffix]

theorem extract_frames_nil : extract_frames [] = ([], []) := by
  rw [extract_frames.eq_def]
  simp [eat_bytes_until_preamble, find_preamble_suffix]

/-- Master unfolding lemma: running the reassembler on a buffer that starts
with the preamble followed by one complete candidate frame. When the
trailing little-endian CRC equals `calculate_crc` of
`LENGTH || OPCODE || PAYLOAD` (the byte range `frame[2:4+LENGTH]`),
the payload-frame is emitted and the reassembler continues behind the
frame; otherwise nothing is emitted and the bytes behind the frame are
returned unscanned. -/
theorem extract_frames_frame (op : Nat) (pl : List Nat) (c0 c1 : Nat)
    (rest : List Nat) :
    extract_frames (0xAA :: 0x55 :: pl.length :: op :: (pl ++ c0 :: c1 :: rest)) =
      if crc16 (pl.length :: op :: pl) = c0 + 256 * c1 then
        ((pl.length :: op :: pl) :: (extract_frames rest).1,
          (extract_frames rest).2)
      else ([], rest) := by
  have hdl : List.take 1 (List.drop 2
      (0xAA :: 0x55 :: pl.length :: op :: (pl ++ c0 :: c1 :: rest))) = [pl.length] := by
    simp
  have h1 : ¬ ((0xAA :: 0x55 :: pl.length :: op ::
      (pl ++ c0 :: c1 :: rest)).length < 6) := by
    simp; omega
  have h2 : ¬ ((0xAA :: 0x55 :: pl.length :: op ::
      (pl ++ c0 :: c1 :: rest)).length < 6 + pl.length) := by
    simp; omega
  have hsplit : 0xAA :: 0x55 :: pl.length :: op :: (pl ++ c0 :: c1 :: rest)
      = (0xAA :: 0x55 :: pl.length :: op :: (pl ++ [c0, c1])) ++ rest := by
    simp
  have htake : List.take (4 + pl.length + 2)
      (0xAA :: 0x55 :: pl.length :: op :: (pl ++ c0 :: c1 :: rest))
      = 0xAA :: 0x55 :: pl.length :: op :: (pl ++ [c0, c1]) := by
    rw [hsplit]
    exact List.take_left' (by simp; omega)
  have hdrop : List.drop (6 + pl.length)
      (0xAA :: 0x55 :: pl.length :: op :: (pl ++ c0 :: c1 :: rest)) = rest := by
    rw [hsplit]
    exact List.drop_left' (by simp; omega)
  have hflen : (0xAA :: 0x55 :: pl.length :: op :: (pl ++ [c0, c1])).length
      = 6 + pl.length := by simp; omega
  have hexp : List.take (2 + pl.length) (List.drop 2
      (0xAA :: 0x55 :: pl.length :: op :: (pl ++ [c0, c1]))) = pl.length :: op :: pl := by
    have hd2 : List.drop 2 (0xAA :: 0x55 :: pl.length :: op :: (pl ++ [c0, c1]))
        = (pl.length :: op :: pl) ++ [c0, c1] := by simp
    rw [hd2]
    exact List.take_left' (by simp; omega)
  have hact : List.drop (6 + pl.length - 2)
      (0xAA :: 0x55 :: pl.length :: op :: (pl ++ [c0, c1])) = [c0, c1] := by
    have hs2 : 0xAA :: 0x55 :: pl.length :: op :: (pl ++ [c0, c1])
        = (0xAA :: 0x55 :: pl.length :: op :: pl) ++ [c0, c1] := by simp
    rw [hs2]
    exact List.drop_left' (by simp; omega)
  have hbody : List.take (6 + pl.length - 4) (List.drop 2
      (0xAA :: 0x55 :: pl.length :: op :: (pl ++ [c0, c1]))) = pl.length :: op :: pl := by
    rw [show 6 + pl.length - 4 = 2 + pl.length by omega]
    exact hexp
  rw [extract_frames.eq_def]
  simp only [eat_bytes_preamble, hdl, le_bytes_singleton]
  rw [if_neg h1, if_neg h2, htake, hdrop, hflen, hexp, hact, hbody, le_bytes_pair]
  by_cases hcrc : crc16 (pl.length :: op :: pl) = c0 + 256 * c1
  · rw [if_pos hcrc, if_pos hcrc]
    by_cases hr : 0 < rest.length
    · rw [dif_pos hr]
    · rw [dif_neg hr]
      have hnil : rest = [] := by
        cases rest with
        | nil => rfl
        | cons a l => simp at hr
      subst hnil
      rw [extract_frames_nil]
  · rw [if_neg hcrc, if_neg hcrc]

/-- Reassembler stop case: fewer than 6 bytes after the preamble scan. -/
theorem extract_frames_short (raw : List Nat)
    (h : (eat_bytes_until_preamble raw).length < 6) :
    extract_frames raw = ([], eat_bytes_until_preamble raw) := by
  rw [extract_frames.eq_def, if_pos h]

/-- One CRC register shift always leaves a 16-bit value. -/
theorem crc16_round_lt (c : Nat) : crc16_round c < 65536 := by
  unfold crc16_round
  have h1 : c * 2 % 65536 < 65536 := Nat.mod_lt _ (by norm_num)
  split
  · have h2 : (65536 : Nat) = 2 ^ 16 := by norm_num
    rw [h2] at h1 ⊢
    exact Nat.xor_lt_two_pow h1 (by norm_num)
  · exact h1

theorem crc16_byte_lt (c b : Nat) : crc16_byte c b < 65536 := by
  unfold crc16_byte
  rw [show (8 : Nat) = 7 + 1 from rfl, Function.iterate_succ_apply']
  exact crc16_round_lt _

theorem crc16_foldl_lt (data : List Nat) :
    ∀ init : Nat, init < 65536 → List.foldl crc16_byte init data < 65536 := by
  induction data with
  | nil => intro init h; simpa using h
  | cons b l ih =>
    intro init h
    simp only [List.foldl_cons]
    exact ih _ (crc16_byte_lt init b)

/-- The CRC register is always a 16-bit value, so
`calculate_crc_bytes` never hits `OverflowError`. -/
theorem crc16_lt (data : List Nat) : crc16 data < 65536 :=
  crc16_foldl_lt data 0xFFFF (by norm_num)

/-! ## Claims C1, C2, C4 and C9: the wire-frame codec -/

/-- **C1, counterexample.** The reassembler accepts the frame
`AA 55 01 01 22 DB 88` (this is the repository's own known-good test
vector), although the CRC-16 of its opcode-and-payload bytes `01 22`
alone is NOT the trailing checksum `0x88DB`: the checksummed range is
`frame[2:4+LENGTH]`, which includes the LENGTH byte, contradicting the
claim that the LENGTH byte is excluded. -/
theorem C1_counterexample :
    extract_frames [0xAA, 0x55, 0x01, 0x01, 0x22, 0xDB, 0x88]
        = ([[0x01, 0x01, 0x22]], [])
      ∧ crc16 [0x01, 0x22] ≠ 0xDB + 256 * 0x88 := by
  have h := extract_frames_frame 0x01 [0x22] 0xDB 0x88 []
  rw [extract_frames_nil,
    if_pos (by decide : crc16 (List.length [0x22] :: 0x01 :: [0x22])
      = 0xDB + 256 * 0x88)] at h
  exact ⟨by simpa using h, by decide⟩

/-- **C1, amended.** The 16-bit CRC trailer is computed over
`LENGTH || OPCODE || PAYLOAD` (the byte range `frame[2:4+LENGTH]`; only
the preamble and the CRC itself are excluded — the LENGTH byte is
included): `extract_frames` accepts a complete candidate frame exactly
when its trailing little-endian CRC16 equals `crc16` applied to the
LENGTH, opcode and payload bytes. The send path computes its trailer
over the same range, since `write_uart_frame` checksums the whole
payload-frame it is given, whose first byte is LENGTH. -/
theorem C1_theorem (op : Nat) (pl : List Nat) (c0 c1 : Nat)
    (hop : op ≤ 255) (hL : pl.length ≤ 255) (hpl : ∀ b ∈ pl, b ≤ 255)
    (hc0 : c0 ≤ 255) (hc1 : c1 ≤ 255) :
    extract_frames (0xAA :: 0x55 :: pl.length :: op :: (pl ++ [c0, c1]))
        = ([pl.length :: op :: pl], [])
      ↔ crc16 (pl.length :: op :: pl) = c0 + 256 * c1 := by
  have h := extract_frames_frame op pl c0 c1 []
  rw [extract_frames_nil] at h
  constructor
  · intro he
    by_contra hne
    rw [if_neg hne] at h
    rw [h] at he
    simp at he
  · intro hcrc
    rw [if_pos hcrc] at h
    simpa using h

/-- **C1, witness.** The amended acceptance condition instantiated on the
repository's test frame. -/
theorem C1_witness :
    extract_frames (0xAA :: 0x55 :: List.length [0x22] :: 0x01 :: ([0x22] ++ [0xDB, 0x88]))
        = ([List.length [0x22] :: 0x01 :: [0x22]], [])
      ↔ crc16 (List.length [0x22] :: 0x01 :: [0x22]) = 0xDB + 256 * 0x88 :=
  C1_theorem 0x01 [0x22] 0xDB 0x88 (by decide) (by decide)
    (by intro b hb; simp at hb; omega) (by decide) (by decide)

/-- **C2, counterexample.** A complete candidate frame with a corrupted
CRC byte (`...DB 89`; the correct trailer is `DB 88`) followed by the
same frame intact: the single call drops the corrupt candidate but does
NOT recurse on the bytes following it — it returns an empty frame list
and leaves the entire valid second frame in the leftover buffer,
contradicting the claim that the same call returns the subsequent valid
frame in its frame list. -/
theorem C2_counterexample :
    extract_frames ([0xAA, 0x55, 0x01, 0x01, 0x22, 0xDB, 0x89] ++
        [0xAA, 0x55, 0x01, 0x01, 0x22, 0xDB, 0x88])
        = ([], [0xAA, 0x55, 0x01, 0x01, 0x22, 0xDB, 0x88])
      ∧ crc16 [0x01, 0x01, 0x22] ≠ 0xDB + 256 * 0x89
      ∧ crc16 [0x01, 0x01, 0x22] = 0xDB + 256 * 0x88 := by
  have h := extract_frames_frame 0x01 [0x22] 0xDB 0x89
    [0xAA, 0x55, 0x01, 0x01, 0x22, 0xDB, 0x88]
  rw [if_neg (by decide : ¬ (crc16 (List.length [0x22] :: 0x01 :: [0x22])
      = 0xDB + 256 * 0x89))] at h
  exact ⟨by simpa using h, by decide, by decide⟩

/-- **C2, amended.** On a buffer consisting of a complete candidate frame
whose trailing CRC does not match, immediately followed by a complete
CRC-valid frame, `extract_frames` drops the corrupt candidate without
re-scanning inside it and returns the bytes following it as the leftover
buffer; the same single call returns NO frames — the subsequent valid
frame is delivered only by a later call on the returned leftover. -/
theorem C2_theorem (op1 op2 : Nat) (pl1 pl2 : List Nat) (c0 c1 d0 d1 : Nat)
    (hbad : crc16 (pl1.length :: op1 :: pl1) ≠ c0 + 256 * c1)
    (hgood : crc16 (pl2.length :: op2 :: pl2) = d0 + 256 * d1) :
    extract_frames (0xAA :: 0x55 :: pl1.length :: op1 ::
        (pl1 ++ c0 :: c1 ::
          (0xAA :: 0x55 :: pl2.length :: op2 :: (pl2 ++ [d0, d1]))))
        = ([], 0xAA :: 0x55 :: pl2.length :: op2 :: (pl2 ++ [d0, d1]))
      ∧ extract_frames (0xAA :: 0x55 :: pl2.length :: op2 :: (pl2 ++ [d0, d1]))
        = ([pl2.length :: op2 :: pl2], []) := by
  constructor
  · rw [extract_frames_frame, if_neg hbad]
  · have h := extract_frames_frame op2 pl2 d0 d1 []
    rw [extract_frames_nil, if_pos hgood] at h
    simpa using h

/-- **C2, witness.** The corrupt-then-valid behaviour on the concrete
frame pair of the counterexample. -/
theorem C2_witness :
    extract_frames (0xAA :: 0x55 :: List.length [0x22] :: 0x01 ::
        ([0x22] ++ 0xDB :: 0x89 ::
          (0xAA :: 0x55 :: List.length [0x22] :: 0x01 :: ([0x22] ++ [0xDB, 0x88]))))
        = ([], 0xAA :: 0x55 :: List.length [0x22] :: 0x01 :: ([0x22] ++ [0xDB, 0x88]))
      ∧ extract_frames (0xAA :: 0x55 :: List.length [0x22] :: 0x01 ::
          ([0x22] ++ [0xDB, 0x88]))
        = ([List.length [0x22] :: 0x01 :: [0x22]], []) :=
  C2_theorem 0x01 0x01 [0x22] [0x22] 0xDB 0x89 0xDB 0x88 (by decide) (by decide)

/-- **C4.** `extract_frames` on the 7-byte valid frame
`AA 55 01 01 22 DB 88` followed by the incomplete fragment
`AA 55 01 01` returns exactly the payload-frame `01 01 22` (LENGTH,
OPCODE, PAYLOAD with preamble and CRC stripped) with the fragment left
unchanged as the leftover; the trailing bytes `DB 88` are accepted as
this frame's checksum. -/
theorem C4_theorem :
    extract_frames [0xAA, 0x55, 0x01, 0x01, 0x22, 0xDB, 0x88,
        0xAA, 0x55, 0x01, 0x01]
        = ([[0x01, 0x01, 0x22]], [0xAA, 0x55, 0x01, 0x01])
      ∧ crc16 [0x01, 0x01, 0x22] = 0xDB + 256 * 0x88 := by
  have h := extract_frames_frame 0x01 [0x22] 0xDB 0x88 [0xAA, 0x55, 0x01, 0x01]
  rw [if_pos (by decide : crc16 (List.length [0x22] :: 0x01 :: [0x22])
      = 0xDB + 256 * 0x88)] at h
  have hrest : extract_frames [0xAA, 0x55, 0x01, 0x01]
      = ([], [0xAA, 0x55, 0x01, 0x01]) := by
    have he : eat_bytes_until_preamble [0xAA, 0x55, 0x01, 0x01]
        = [0xAA, 0x55, 0x01, 0x01] := eat_bytes_preamble [0x01, 0x01]
    rw [extract_frames_short _ (by rw [he]; decide), he]
  rw [hrest] at h
  exact ⟨by simpa using h, by decide⟩

/-- **C9.** Wire-level framing round-trip: wrapping a payload-frame
`LENGTH || OPCODE || PAYLOAD` (with LENGTH the payload's byte count) the
way the send path does — preamble, frame, two-byte little-endian CRC —
and feeding the result to `extract_frames` yields exactly that one
payload-frame and an empty leftover buffer. -/
theorem C9_theorem (op : Nat) (pl : List Nat)
    (hop : op ≤ 255) (hL : pl.length ≤ 255) (hpl : ∀ b ∈ pl, b ≤ 255) :
    ∃ wire, write_uart_frame (pl.length :: op :: pl) = some wire
      ∧ extract_frames wire = ([pl.length :: op :: pl], []) := by
  set f := pl.length :: op :: pl with hf
  have hcrc : crc16 f < 65536 := crc16_lt f
  have hser : write_uart_frame f
      = some (0xAA :: 0x55 :: (f ++ [crc16 f % 256, crc16 f / 256 % 256])) := by
    unfold write_uart_frame calculate_crc_bytes toBytesLE
    rw [if_pos (by simpa using hcrc)]
    rfl
  refine ⟨_, hser, ?_⟩
  have hform : 0xAA :: 0x55 :: (f ++ [crc16 f % 256, crc16 f / 256 % 256])
      = 0xAA :: 0x55 :: pl.length :: op ::
        (pl ++ (crc16 f % 256) :: (crc16 f / 256 % 256) :: []) := by
    rw [hf]; simp
  rw [hform, extract_frames_frame]
  have hcond : crc16 (pl.length :: op :: pl)
      = crc16 f % 256 + 256 * (crc16 f / 256 % 256) := by
    rw [← hf]
    have h256 : crc16 f / 256 % 256 = crc16 f / 256 :=
      Nat.mod_eq_of_lt (by omega)
    rw [h256, Nat.mod_add_div]
  rw [if_pos hcond, extract_frames_nil]

/-- **C9, witness.** The framing round-trip on the concrete payload-frame
`01 01 22`. -/
theorem C9_witness :
    ∃ wire, write_uart_frame (List.length [0x22] :: 0x01 :: [0x22]) = some wire
      ∧ extract_frames wire = ([List.length [0x22] :: 0x01 :: [0x22]], []) :=
  C9_theorem 0x01 [0x22] (by decide) (by decide)
    (by intro b hb; simp at hb; omega)

/-! ## Message layer: enumerations (`message_types.py`, `messages.py`)

Each Python `IntEnum` is modelled by the list of its member values;
`Enum.from_bytes` becomes a membership test that yields `ValueError`
on a value outside the enumeration. -/

/-- Members of `ModelID`. -/
def ModelID_values : List Nat :=
  [0x1001, 0x1003, 0x1008, 0x1302, 0x1311, 0x1100, 0x1101,
   0x1300, 0x130F, 0x1102, 0x0002, 0x0003]

/-- `ModelID(n)` succeeds. -/
def isModelID (n : Nat) : Bool := ModelID_values.contains n

/-- Members of `ModemState`. -/
def ModemState_values : List Nat := [0x00, 0x01, 0x02, 0x03, 0xFF]

/-- Members of `Error`. -/
def Error_values : List Nat := [0, 1, 2, 3, 4, 5, 6, 7, 8]

/-- Members of `AttentionEvent`. -/
def AttentionEvent_values : List Nat := [0x00, 0x01]

/-- Members of `DFUStatus`. -/
def DFUStatus_values : List Nat :=
  [0x00, 0x01, 0x02, 0x03, 0x04, 0x05, 0x07, 0x08, 0x0A, 0xFF]

/-- Members of `DfuStatus`. -/
def DfuStatus_values : List Nat := [0x01, 0x00]

/-! ## `ModelDesc` (`message_types.py`) -/

/-- `ModelDesc`: a mesh model identifier with an optional configuration
block. -/
structure ModelDesc where
  model_id : Nat
  config : List Nat
  deriving DecidableEq, Repr

/-- `ModelDesc.get_length`: `UART_MODEL_ID_LEN + len(self.config)`. -/
def ModelDesc.get_length (d : ModelDesc) : Nat := 2 + d.config.length

/-- `ModelDesc.serialize`: the identifier as two little-endian bytes,
followed by the configuration block only when the identifier is
`ModelID.SensorSetupServerID` (0x1101). -/
def ModelDesc.serialize (d : ModelDesc) : Option (List Nat) :=
  match toBytesLE 2 d.model_id with
  | none => none
  | some b => some (b ++ if d.model_id = 0x1101 then d.config else [])

/-- `ModelDesc.deserialize`: read a two-byte little-endian identifier
(`ModelID.from_bytes`, `ValueError` outside the enumeration), then read
`UART_SENSOR_SETUP_SERVER_CONFIG_LEN` (10) further bytes as the
configuration exactly when the identifier is 0x1101. -/
def ModelDesc.deserialize (s : List Nat) : Except PyErr (ModelDesc × List Nat) :=
  let (b, s1) := readBytes 2 s
  let v := le_bytes b
  if isModelID v then
    if v = 0x1101 then .ok (⟨v, (readBytes 10 s1).1⟩, (readBytes 10 s1).2)
    else .ok (⟨v, []⟩, s1)
  else .error .valueError

/-! ## Messages (`messages.py`): the tagged union and shared codec parts -/

/-- One constructor for each concrete message class registered in
`message_factory.UART_CLASSES` (the abstract `GenericMessage` base,
opcode 0xFF, is represented only by the `assert False` behaviour of its
unimplemented `serialize`/`deserialize`). -/
inductive Msg
  | pingRequest (data : List Nat)
  | pongResponse (data : List Nat)
  | initDeviceEvent (model_ids : List Nat)
  | createInstancesRequest (model_descs : List ModelDesc)
  | createInstancesResponse (model_ids : List Nat)
  | initNodeEvent (model_ids : List Nat)
  | meshMessageRequest (instance_index sub_index mesh_opcode : Nat)
      (mesh_command : List Nat)
  | startNodeRequest
  | startNodeResponse
  | factoryResetRequest
  | factoryResetResponse
  | factoryResetEvent
  | meshMessageResponse (instance_index sub_index : Nat)
  | currentStateRequest
  | currentStateResponse (state : Nat)
  | errorMessage (error : Nat)
  | firmwareVersionRequest
  | firmwareVersionResponse (firmware_version : List Nat)
  | sensorUpdateRequest (instance_index property_id : Nat) (data : List Nat)
  | attentionEventMessage (attention : Nat)
  | softResetRequest
  | softResetResponse
  | sensorUpdateResponse
  | deviceUUIDRequest
  | deviceUUIDResponse (uuid : List Nat)
  | dfuInitRequest (firmware_size : Nat) (firmware_sha256 : List Nat)
      (app_data_length : Nat) (app_data : List Nat)
  | dfuInitResponse (status : Nat)
  | dfuStatusRequest
  | dfuStatusResponse (status supported_page_size firmware_offset firmware_crc : Nat)
  | dfuPageCreateRequest (requested_page_size : Nat)
  | dfuPageCreateResponse (status : Nat)
  | dfuWriteDataEvent (data_len : Nat) (data : List Nat)
  | dfuPageStoreRequest
  | dfuPageStoreResponse (status : Nat)
  | dfuStateRequest
  | dfuStateResponse (status : Nat)
  | dfuCancelRequest
  | dfuCancelResponse
  | startTestRequest (company_id test_id instance_index : Nat)
  | startTestResponse
  deriving DecidableEq, Repr

/-- Each variant's `get_length` method: the serialized payload length
computed from the message's own fields (zero-payload variants inherit
`GenericMessage.get_length`, which returns 0). -/
def Msg.get_length : Msg → Nat
  | .pingRequest d => d.length
  | .pongResponse d => d.length
  | .initDeviceEvent ids => 2 * ids.length
  | .createInstancesRequest ds => ds.foldl (fun acc d => acc + d.get_length) 0
  | .createInstancesResponse ids => 2 * ids.length
  | .initNodeEvent ids => 2 * ids.length
  | .meshMessageRequest _ _ _ cmd => 1 + 1 + 2 + cmd.length
  | .meshMessageResponse _ _ => 1 + 1
  | .currentStateResponse _ => 1
  | .errorMessage _ => 1
  | .firmwareVersionResponse fv => fv.length
  | .sensorUpdateRequest _ _ d => 1 + 2 + d.length
  | .attentionEventMessage _ => 1
  | .deviceUUIDResponse _ => 16
  | .dfuInitRequest _ _ _ ad => 4 + 32 + 1 + ad.length
  | .dfuInitResponse _ => 1
  | .dfuStatusResponse _ _ _ _ => 1 + 4 + 4 + 4
  | .dfuPageCreateRequest _ => 4
  | .dfuPageCreateResponse _ => 1
  | .dfuWriteDataEvent _ d => 1 + d.length
  | .dfuPageStoreResponse _ => 1
  | .dfuStateResponse _ => 1
  | .startTestRequest _ _ _ => 2 + 1 + 1
  | _ => 0

/-- `GenericMessage.serialize_common_part`: write the LENGTH byte
(computed by `get_length`) then the opcode byte. -/
def serialize_common_part (length ty : Nat) : Option (List Nat) :=
  match toBytesLE 1 length, toBytesLE 1 ty with
  | some lb, some tb => some (lb ++ tb)
  | _, _ => none

/-- `GenericMessage.deserialize_common_part`: read the LENGTH byte and
the opcode byte (an exhausted stream reads as 0, as
`int.from_bytes(b'')` does); `InvalidOpcode` when the opcode byte is not
the type the decoder was invoked for. -/
def deserialize_common_part (ty : Nat) (s : List Nat) :
    Except PyErr (Nat × List Nat) :=
  let (lb, s1) := readBytes 1 s
  let (ob, s2) := readBytes 1 s1
  if le_bytes ob ≠ ty then .error .invalidOpcode
  else .ok (le_bytes lb, s2)

/-- The `while length >= UART_MODEL_ID_LEN` decoding loop shared by
`InitDeviceEventMessage`, `CreateInstancesResponseMessage` and
`InitNodeEventMessage`: repeatedly read a 16-bit `ModelID`; a nonzero
remainder afterwards is `InvalidLen`. -/
def read_model_ids (length : Int) (s : List Nat) :
    Except PyErr (List Nat × List Nat) :=
  if h : 2 ≤ length then
    let (b, s1) := readBytes 2 s
    let v := le_bytes b
    if isModelID v then
      match read_model_ids (length - 2) s1 with
      | .ok (ids, s2) => .ok (v :: ids, s2)
      | .error e => .error e
    else .error .valueError
  else if length ≠ 0 then .error .invalidLen
  else .ok ([], s)
termination_by length.toNat
decreasing_by omega

/-- The `while length >= UART_MODEL_ID_LEN` loop of
`CreateInstancesRequestMessage.deserialize`: read a `ModelDesc`,
decrement by its `get_length`; a nonzero remainder is `InvalidLen`. -/
def read_model_descs (length : Int) (s : List Nat) :
    Except PyErr (List ModelDesc × List Nat) :=
  if h : 2 ≤ length then
    match ModelDesc.deserialize s with
    | .error e => .error e
    | .ok (d, s1) =>
      match read_model_descs (length - d.get_length) s1 with
      | .ok (ds, s2) => .ok (d :: ds, s2)
      | .error e => .error e
  else if length ≠ 0 then .error .invalidLen
  else .ok ([], s)
termination_by length.toNat
decreasing_by
  have hd : 2 ≤ (d.get_length : Int) := by
    have h2 : 2 ≤ d.get_length := by unfold ModelDesc.get_length; omega
    exact_mod_cast h2
  omega

/-! ## Messages: the per-opcode decoders

Python classes whose `deserialize` bodies are textually identical share
one parameterized definition. -/

/-- The `deserialize` shared by all zero-payload variants: common part,
then `InvalidLen` unless LENGTH is exactly 0. -/
def deserialize_zero_payload (ty : Nat) (mk : Msg) (s : List Nat) :
    Except PyErr Msg :=
  match deserialize_common_part ty s with
  | .error e => .error e
  | .ok (length, _) => if length ≠ 0 then .error .invalidLen else .ok mk

/-- The `deserialize` of `PingRequestMessage` / `PongResponseMessage`:
read LENGTH bytes of data, `InvalidLen` when fewer were available. -/
def deserialize_blob (ty : Nat) (mk : List Nat → Msg) (s : List Nat) :
    Except PyErr Msg :=
  match deserialize_common_part ty s with
  | .error e => .error e
  | .ok (length, s1) =>
    let (data, _) := readBytes length s1
    if length ≠ data.length then .error .invalidLen else .ok (mk data)

/-- The `deserialize` shared by all one-byte-enum variants
(`CurrentStateResponse`, `Error`, `AttentionEvent`, the DFU status
responses, `DfuStateResponse`): read one byte through the enum
(`ValueError` outside it), then `InvalidLen` unless `LENGTH - 1 = 0`. -/
def deserialize_enum_field (ty : Nat) (valid : List Nat) (mk : Nat → Msg)
    (s : List Nat) : Except PyErr Msg :=
  match deserialize_common_part ty s with
  | .error e => .error e
  | .ok (length, s1) =>
    let v := le_bytes (readBytes 1 s1).1
    if valid.contains v then
      if (length : Int) - 1 ≠ 0 then .error .invalidLen else .ok (mk v)
    else .error .valueError

/-- The `deserialize` shared by the three model-identifier-list events. -/
def deserialize_model_id_list (ty : Nat) (mk : List Nat → Msg) (s : List Nat) :
    Except PyErr Msg :=
  match deserialize_common_part ty s with
  | .error e => .error e
  | .ok (length, s1) =>
    match read_model_ids (length : Int) s1 with
    | .ok (ids, _) => .ok (mk ids)
    | .error e => .error e

/-- `CreateInstancesRequestMessage.deserialize`. -/
def deserialize_create_instances_request (s : List Nat) : Except PyErr Msg :=
  match deserialize_common_part 0x04 s with
  | .error e => .error e
  | .ok (length, s1) =>
    match read_model_descs (length : Int) s1 with
    | .ok (ds, _) => .ok (.createInstancesRequest ds)
    | .error e => .error e

/-- `MeshMessageRequestMessage.deserialize`: one byte instance index, one
byte sub index, two bytes mesh opcode, then
`LENGTH - 4` bytes of mesh command, which must all be available. -/
def deserialize_mesh_message_request (s : List Nat) : Except PyErr Msg :=
  match deserialize_common_part 0x07 s with
  | .error e => .error e
  | .ok (length, s1) =>
    let (iib, s2) := readBytes 1 s1
    let (sib, s3) := readBytes 1 s2
    let (mob, s4) := readBytes 2 s3
    let len2 : Int := (length : Int) - (1 + 1 + 2)
    let (cmd, _) := readBytes len2 s4
    if len2 ≠ (cmd.length : Int) then .error .invalidLen
    else .ok (.meshMessageRequest (le_bytes iib) (le_bytes sib) (le_bytes mob) cmd)

/-- `MeshMessageResponseMessage.deserialize`. -/
def deserialize_mesh_message_response (s : List Nat) : Except PyErr Msg :=
  match deserialize_common_part 0x0F s with
  | .error e => .error e
  | .ok (length, s1) =>
    let (iib, s2) := readBytes 1 s1
    let (sib, _) := readBytes 1 s2
    if (length : Int) - 1 - 1 ≠ 0 then .error .invalidLen
    else .ok (.meshMessageResponse (le_bytes iib) (le_bytes sib))

/-- `FirmwareVersionResponseMessage.deserialize`: `InvalidLen` when
LENGTH is 0, otherwise read up to LENGTH bytes (no shortfall check). -/
def deserialize_firmware_version_response (s : List Nat) : Except PyErr Msg :=
  match deserialize_common_part 0x14 s with
  | .error e => .error e
  | .ok (length, s1) =>
    if length = 0 then .error .invalidLen
    else .ok (.firmwareVersionResponse (readBytes (length : Int) s1).1)

/-- `SensorUpdateRequestMessage.deserialize`. -/
def deserialize_sensor_update_request (s : List Nat) : Except PyErr Msg :=
  match deserialize_common_part 0x15 s with
  | .error e => .error e
  | .ok (length, s1) =>
    let (iib, s2) := readBytes 1 s1
    let (pib, s3) := readBytes 2 s2
    let len2 : Int := (length : Int) - (1 + 2)
    let (d, _) := readBytes len2 s3
    if len2 ≠ (d.length : Int) then .error .invalidLen
    else .ok (.sensorUpdateRequest (le_bytes iib) (le_bytes pib) d)

/-- `DeviceUUIDResponseMessage.deserialize`: sixteen bytes of UUID;
`InvalidLen` unless LENGTH is exactly 16 and 16 bytes were available. -/
def deserialize_device_uuid_response (s : List Nat) : Except PyErr Msg :=
  match deserialize_common_part 0x1B s with
  | .error e => .error e
  | .ok (length, s1) =>
    let (uuid, _) := readBytes 16 s1
    if (length : Int) - 16 ≠ 0 then .error .invalidLen
    else if (uuid.length : Int) - 16 ≠ 0 then .error .invalidLen
    else .ok (.deviceUUIDResponse uuid)

/-- `DfuInitRequestMessage.deserialize`: four bytes firmware size, 32
bytes SHA-256, one byte app-data length; `InvalidLen` unless
`LENGTH - 37` equals that embedded length and that many bytes remain. -/
def deserialize_dfu_init_request (s : List Nat) : Except PyErr Msg :=
  match deserialize_common_part 0x80 s with
  | .error e => .error e
  | .ok (length, s1) =>
    let (fsb, s2) := readBytes 4 s1
    let (sha, s3) := readBytes 32 s2
    let (adlb, s4) := readBytes 1 s3
    let adl := le_bytes adlb
    let len2 : Int := (length : Int) - (4 + 32 + 1)
    if len2 ≠ (adl : Int) then .error .invalidLen
    else
      let (ad, _) := readBytes len2 s4
      if (adl : Int) ≠ (ad.length : Int) then .error .invalidLen
      else .ok (.dfuInitRequest (le_bytes fsb) sha adl ad)

/-- `DfuStatusResponseMessage.deserialize`. -/
def deserialize_dfu_status_response (s : List Nat) : Except PyErr Msg :=
  match deserialize_common_part 0x83 s with
  | .error e => .error e
  | .ok (length, s1) =>
    let v := le_bytes (readBytes 1 s1).1
    if DFUStatus_values.contains v then
      let s2 := (readBytes 1 s1).2
      let (spb, s3) := readBytes 4 s2
      let (fob, s4) := readBytes 4 s3
      let (fcb, _) := readBytes 4 s4
      if (length : Int) - 1 - 4 - 4 - 4 ≠ 0 then .error .invalidLen
      else .ok (.dfuStatusResponse v (le_bytes spb) (le_bytes fob) (le_bytes fcb))
    else .error .valueError

/-- `DfuPageCreateRequestMessage.deserialize`. -/
def deserialize_dfu_page_create_request (s : List Nat) : Except PyErr Msg :=
  match deserialize_common_part 0x84 s with
  | .error e => .error e
  | .ok (length, s1) =>
    let (rpb, _) := readBytes 4 s1
    if (length : Int) - 4 ≠ 0 then .error .invalidLen
    else .ok (.dfuPageCreateRequest (le_bytes rpb))

/-- `DfuWriteDataEventMessage.deserialize`: one byte data length;
`InvalidLen` unless `LENGTH - 1` equals it and that many bytes remain. -/
def deserialize_dfu_write_data_event (s : List Nat) : Except PyErr Msg :=
  match deserialize_common_part 0x86 s with
  | .error e => .error e
  | .ok (length, s1) =>
    let (dlb, s2) := readBytes 1 s1
    let dl := le_bytes dlb
    let len2 : Int := (length : Int) - 1
    if len2 ≠ (dl : Int) then .error .invalidLen
    else
      let (d, _) := readBytes len2 s2
      if (dl : Int) ≠ (d.length : Int) then .error .invalidLen
      else .ok (.dfuWriteDataEvent dl d)

/-- `StartTestRequest.deserialize`. -/
def deserialize_start_test_request (s : List Nat) : Except PyErr Msg :=
  match deserialize_common_part 0x20 s with
  | .error e => .error e
  | .ok (length, s1) =>
    let (cib, s2) := readBytes 2 s1
    let (tib, s3) := readBytes 1 s2
    let (iib, _) := readBytes 1 s3
    if (length : Int) - (2 + 1 + 1) ≠ 0 then .error .invalidLen
    else .ok (.startTestRequest (le_bytes cib) (le_bytes tib) (le_bytes iib))

/-! ## Messages: registry dispatch (`message_factory.py`) -/

/-- The opcodes registered in `UART_CLASSES` (including the generic
fallback 0xFF). -/
def registryOpcodes : List Nat :=
  [0x01, 0x02, 0x03, 0x04, 0x05, 0x06, 0x07, 0x09, 0x0B, 0x0C, 0x0D, 0x0E,
   0x0F, 0x10, 0x11, 0x12, 0x13, 0x14, 0x15, 0x16, 0x17, 0x18, 0x19, 0x1A,
   0x1B, 0x20, 0x21, 0xFF, 0x80, 0x81, 0x82, 0x83, 0x84, 0x85, 0x86, 0x87,
   0x88, 0x89, 0x8A, 0x8B, 0x8C]

/-- The opcodes with a concrete message class (registry minus the
generic fallback 0xFF, whose `deserialize` is the unimplemented
base-class method). -/
def variantOpcodes : List Nat :=
  [0x01, 0x02, 0x03, 0x04, 0x05, 0x06, 0x07, 0x09, 0x0B, 0x0C, 0x0D, 0x0E,
   0x0F, 0x10, 0x11, 0x12, 0x13, 0x14, 0x15, 0x16, 0x17, 0x18, 0x19, 0x1A,
   0x1B, 0x20, 0x21, 0x80, 0x81, 0x82, 0x83, 0x84, 0x85, 0x86, 0x87,
   0x88, 0x89, 0x8A, 0x8B, 0x8C]

/-- The opcodes of the zero-payload variants. -/
def zeroPayloadOpcodes : List Nat :=
  [0x09, 0x0B, 0x0C, 0x0D, 0x0E, 0x10, 0x13, 0x17, 0x18, 0x19, 0x1A, 0x21,
   0x82, 0x87, 0x89, 0x8B, 0x8C]

/-- `UART_CLASSES[cmd]().deserialize(stream)`: dispatch a full message
buffer to the decoder registered for `cmd`. An unregistered opcode is
the dictionary `KeyError`, re-raised as `InvalidOpcode`; opcode 0xFF
maps to the abstract `GenericMessage.deserialize`, whose
`assert False` raises `AssertionError`. -/
def decode_with (cmd : Nat) (data : List Nat) : Except PyErr Msg :=
  if cmd = 0x01 then deserialize_blob 0x01 Msg.pingRequest data
  else if cmd = 0x02 then deserialize_blob 0x02 Msg.pongResponse data
  else if cmd = 0x03 then deserialize_model_id_list 0x03 Msg.initDeviceEvent data
  else if cmd = 0x04 then deserialize_create_instances_request data
  else if cmd = 0x05 then
    deserialize_model_id_list 0x05 Msg.createInstancesResponse data
  else if cmd = 0x06 then deserialize_model_id_list 0x06 Msg.initNodeEvent data
  else if cmd = 0x07 then deserialize_mesh_message_request data
  else if cmd = 0x09 then deserialize_zero_payload 0x09 .startNodeRequest data
  else if cmd = 0x0B then deserialize_zero_payload 0x0B .startNodeResponse data
  else if cmd = 0x0C then deserialize_zero_payload 0x0C .factoryResetRequest data
  else if cmd = 0x0D then deserialize_zero_payload 0x0D .factoryResetResponse data
  else if cmd = 0x0E then deserialize_zero_payload 0x0E .factoryResetEvent data
  else if cmd = 0x0F then deserialize_mesh_message_response data
  else if cmd = 0x10 then deserialize_zero_payload 0x10 .currentStateRequest data
  else if cmd = 0x11 then
    deserialize_enum_field 0x11 ModemState_values .currentStateResponse data
  else if cmd = 0x12 then deserialize_enum_field 0x12 Error_values .errorMessage data
  else if cmd = 0x13 then
    deserialize_zero_payload 0x13 .firmwareVersionRequest data
  else if cmd = 0x14 then deserialize_firmware_version_response data
  else if cmd = 0x15 then deserialize_sensor_update_request data
  else if cmd = 0x16 then
    deserialize_enum_field 0x16 AttentionEvent_values .attentionEventMessage data
  else if cmd = 0x17 then deserialize_zero_payload 0x17 .softResetRequest data
  else if cmd = 0x18 then deserialize_zero_payload 0x18 .softResetResponse data
  else if cmd = 0x19 then deserialize_zero_payload 0x19 .sensorUpdateResponse data
  else if cmd = 0x1A then deserialize_zero_payload 0x1A .deviceUUIDRequest data
  else if cmd = 0x1B then deserialize_device_uuid_response data
  else if cmd = 0x20 then deserialize_start_test_request data
  else if cmd = 0x21 then deserialize_zero_payload 0x21 .startTestResponse data
  else if cmd = 0xFF then .error .assertionError
  else if cmd = 0x80 then deserialize_dfu_init_request data
  else if cmd = 0x81 then
    deserialize_enum_field 0x81 DFUStatus_values .dfuInitResponse data
  else if cmd = 0x82 then deserialize_zero_payload 0x82 .dfuStatusRequest data
  else if cmd = 0x83 then deserialize_dfu_status_response data
  else if cmd = 0x84 then deserialize_dfu_page_create_request data
  else if cmd = 0x85 then
    deserialize_enum_field 0x85 DFUStatus_values .dfuPageCreateResponse data
  else if cmd = 0x86 then deserialize_dfu_write_data_event data
  else if cmd = 0x87 then deserialize_zero_payload 0x87 .dfuPageStoreRequest data
  else if cmd = 0x88 then
    deserialize_enum_field 0x88 DFUStatus_values .dfuPageStoreResponse data
  else if cmd = 0x89 then deserialize_zero_payload 0x89 .dfuStateRequest data
  else if cmd = 0x8A then
    deserialize_enum_field 0x8A DfuStatus_values .dfuStateResponse data
  else if cmd = 0x8B then deserialize_zero_payload 0x8B .dfuCancelRequest data
  else if cmd = 0x8C then deserialize_zero_payload 0x8C .dfuCancelResponse data
  else .error .invalidOpcode

/-- `message_factory.deserialize_message`: look up `data[1]`
(`IndexError` on a buffer shorter than two bytes is re-raised as
`InvalidLen`), then decode the whole buffer with the registered class. -/
def deserialize_message (data : List Nat) : Except PyErr Msg :=
  match data.get? 1 with
  | none => .error .invalidLen
  | some cmd => decode_with cmd data

/-! ## Messages: serialization (`serialize` methods and
`message_factory.serialize_message`) -/

/-- The `for model_id in self.model_ids: stream.write(...)` loop. -/
def serializeModelIds : List Nat → Option (List Nat)
  | [] => some []
  | v :: rest => do
    let b ← toBytesLE 2 v
    let r ← serializeModelIds rest
    pure (b ++ r)

/-- The `for model_desc in self.model_descs: model_desc.serialize(...)`
loop. -/
def serializeModelDescs : List ModelDesc → Option (List Nat)
  | [] => some []
  | d :: rest => do
    let b ← d.serialize
    let r ← serializeModelDescs rest
    pure (b ++ r)

/-- `message_factory.serialize_message`: the common part (LENGTH from
`get_length`, then the opcode) followed by the variant's payload fields,
each little-endian unsigned; `none` models the `OverflowError` of a
field that does not fit its declared width. -/
def serialize_message (m : Msg) : Option (List Nat) := do
  match m with
  | .pingRequest d => do
    let c ← serialize_common_part m.get_length 0x01
    pure (c ++ d)
  | .pongResponse d => do
    let c ← serialize_common_part m.get_length 0x02
    pure (c ++ d)
  | .initDeviceEvent ids => do
    let c ← serialize_common_part m.get_length 0x03
    let body ← serializeModelIds ids
    pure (c ++ body)
  | .createInstancesRequest ds => do
    let c ← serialize_common_part m.get_length 0x04
    let body ← serializeModelDescs ds
    pure (c ++ body)
  | .createInstancesResponse ids => do
    let c ← serialize_common_part m.get_length 0x05
    let body ← serializeModelIds ids
    pure (c ++ body)
  | .initNodeEvent ids => do
    let c ← serialize_common_part m.get_length 0x06
    let body ← serializeModelIds ids
    pure (c ++ body)
  | .meshMessageRequest ii si mo cmd => do
    let c ← serialize_common_part m.get_length 0x07
    let a ← toBytesLE 1 ii
    let b ← toBytesLE 1 si
    let o ← toBytesLE 2 mo
    pure (c ++ a ++ b ++ o ++ cmd)
  | .startNodeRequest => serialize_common_part m.get_length 0x09
  | .startNodeResponse => serialize_common_part m.get_length 0x0B
  | .factoryResetRequest => serialize_common_part m.get_length 0x0C
  | .factoryResetResponse => serialize_common_part m.get_length 0x0D
  | .factoryResetEvent => serialize_common_part m.get_length 0x0E
  | .meshMessageResponse ii si => do
    let c ← serialize_common_part m.get_length 0x0F
    let a ← toBytesLE 1 ii
    let b ← toBytesLE 1 si
    pure (c ++ a ++ b)
  | .currentStateRequest => serialize_common_part m.get_length 0x10
  | .currentStateResponse st => do
    let c ← serialize_common_part m.get_length 0x11
    let b ← toBytesLE 1 st
    pure (c ++ b)
  | .errorMessage e => do
    let c ← serialize_common_part m.get_length 0x12
    let b ← toBytesLE 1 e
    pure (c ++ b)
  | .firmwareVersionRequest => serialize_common_part m.get_length 0x13
  | .firmwareVersionResponse fv => do
    let c ← serialize_common_part m.get_length 0x14
    pure (c ++ fv)
  | .sensorUpdateRequest ii pid d => do
    let c ← serialize_common_part m.get_length 0x15
    let a ← toBytesLE 1 ii
    let p ← toBytesLE 2 pid
    pure (c ++ a ++ p ++ d)
  | .attentionEventMessage a => do
    let c ← serialize_common_part m.get_length 0x16
    let b ← toBytesLE 1 a
    pure (c ++ b)
  | .softResetRequest => serialize_common_part m.get_length 0x17
  | .softResetResponse => serialize_common_part m.get_length 0x18
  | .sensorUpdateResponse => serialize_common_part m.get_length 0x19
  | .deviceUUIDRequest => serialize_common_part m.get_length 0x1A
  | .deviceUUIDResponse u => do
    let c ← serialize_common_part m.get_length 0x1B
    pure (c ++ u)
  | .dfuInitRequest fs sha adl ad => do
    let c ← serialize_common_part m.get_length 0x80
    let f ← toBytesLE 4 fs
    let a ← toBytesLE 1 adl
    pure (c ++ f ++ sha ++ a ++ ad)
  | .dfuInitResponse st => do
    let c ← serialize_common_part m.get_length 0x81
    let b ← toBytesLE 1 st
    pure (c ++ b)
  | .dfuStatusRequest => serialize_common_part m.get_length 0x82
  | .dfuStatusResponse st sps fo fc => do
    let c ← serialize_common_part m.get_length 0x83
    let b ← toBytesLE 1 st
    let p ← toBytesLE 4 sps
    let o ← toBytesLE 4 fo
    let cc ← toBytesLE 4 fc
    pure (c ++ b ++ p ++ o ++ cc)
  | .dfuPageCreateRequest r => do
    let c ← serialize_common_part m.get_length 0x84
    let b ← toBytesLE 4 r
    pure (c ++ b)
  | .dfuPageCreateResponse st => do
    let c ← serialize_common_part m.get_length 0x85
    let b ← toBytesLE 1 st
    pure (c ++ b)
  | .dfuWriteDataEvent dl d => do
    let c ← serialize_common_part m.get_length 0x86
    let b ← toBytesLE 1 dl
    pure (c ++ b ++ d)
  | .dfuPageStoreRequest => serialize_common_part m.get_length 0x87
  | .dfuPageStoreResponse st => do
    let c ← serialize_common_part m.get_length 0x88
    let b ← toBytesLE 1 st
    pure (c ++ b)
  | .dfuStateRequest => serialize_common_part m.get_length 0x89
  | .dfuStateResponse st => do
    let c ← serialize_common_part m.get_length 0x8A
    let b ← toBytesLE 1 st
    pure (c ++ b)
  | .dfuCancelRequest => serialize_common_part m.get_length 0x8B
  | .dfuCancelResponse => serialize_common_part m.get_length 0x8C
  | .startTestRequest cid tid ii => do
    let c ← serialize_common_part m.get_length 0x20
    let a ← toBytesLE 2 cid
    let b ← toBytesLE 1 tid
    let ci ← toBytesLE 1 ii
    pure (c ++ a ++ b ++ ci)
  | .startTestResponse => serialize_common_part m.get_length 0x21

/-! ## Declared field domains -/

/-- A single byte. -/
def isByte (n : Nat) : Bool := n < 256

/-- A `ModelDesc` whose fields are in their declared domains and whose
configuration block is present (with its declared 10-byte size) exactly
when the identifier is the sensor-setup value. -/
def ModelDesc.wf (d : ModelDesc) : Bool :=
  isModelID d.model_id &&
    (if d.model_id = 0x1101 then
      d.config.length = 10 && d.config.all isByte
    else d.config.isEmpty)

/-- Fields within their declared size domains and internally consistent:
each integer field fits its wire width, byte-blob fields consist of
bytes and keep the whole payload length within the 8-bit LENGTH field,
internal length sub-fields equal the byte counts of the fields they
describe, and fixed-width blobs (UUID, SHA-256) have exactly their
declared size. For `firmwareVersionResponse` the version blob is
nonempty, since its decoder rejects LENGTH 0. -/
def Msg.wf : Msg → Bool
  | .pingRequest d => d.length ≤ 255 && d.all isByte
  | .pongResponse d => d.length ≤ 255 && d.all isByte
  | .initDeviceEvent ids => ids.all isModelID && 2 * ids.length ≤ 255
  | .createInstancesRequest ds =>
    ds.all ModelDesc.wf && ds.foldl (fun acc d => acc + d.get_length) 0 ≤ 255
  | .createInstancesResponse ids => ids.all isModelID && 2 * ids.length ≤ 255
  | .initNodeEvent ids => ids.all isModelID && 2 * ids.length ≤ 255
  | .meshMessageRequest ii si mo cmd =>
    ii < 256 && si < 256 && mo < 65536 && 4 + cmd.length ≤ 255 && cmd.all isByte
  | .meshMessageResponse ii si => ii < 256 && si < 256
  | .currentStateResponse st => ModemState_values.contains st
  | .errorMessage e => Error_values.contains e
  | .firmwareVersionResponse fv =>
    1 ≤ fv.length && fv.length ≤ 255 && fv.all isByte
  | .sensorUpdateRequest ii pid d =>
    ii < 256 && pid < 65536 && 3 + d.length ≤ 255 && d.all isByte
  | .attentionEventMessage a => AttentionEvent_values.contains a
  | .deviceUUIDResponse u => u.length = 16 && u.all isByte
  | .dfuInitRequest fs sha adl ad =>
    fs < 4294967296 && sha.length = 32 && sha.all isByte &&
      adl = ad.length && 37 + ad.length ≤ 255 && ad.all isByte
  | .dfuInitResponse st => DFUStatus_values.contains st
  | .dfuStatusResponse st sps fo fc =>
    DFUStatus_values.contains st && sps < 4294967296 && fo < 4294967296 &&
      fc < 4294967296
  | .dfuPageCreateRequest r => r < 4294967296
  | .dfuPageCreateResponse st => DFUStatus_values.contains st
  | .dfuWriteDataEvent dl d => dl = d.length && 1 + d.length ≤ 255 && d.all isByte
  | .dfuPageStoreResponse st => DFUStatus_values.contains st
  | .dfuStateResponse st => DfuStatus_values.contains st
  | .startTestRequest cid tid ii => cid < 65536 && tid < 256 && ii < 256
  | _ => true

/-! ## Codec helper lemmas -/

/-- Reading the common part off a buffer of at least two bytes. -/
theorem common_part_cons (ty b0 b1 : Nat) (rest : List Nat) :
    deserialize_common_part ty (b0 :: b1 :: rest)
      = if b1 = ty then .ok (b0, rest) else .error .invalidOpcode := by
  by_cases h : b1 = ty <;>
    simp [deserialize_common_part, readBytes, le_bytes, h]

/-- The zero-payload decoder on a matching buffer checks only LENGTH. -/
theorem zero_payload_spec (ty : Nat) (mk : Msg) (L : Nat) (rest : List Nat) :
    deserialize_zero_payload ty mk (L :: ty :: rest)
      = if L ≠ 0 then .error .invalidLen else .ok mk := by
  rw [deserialize_zero_payload, common_part_cons, if_pos rfl]

theorem zero_if_spec (mk : Msg) (L : Nat) :
    ((∃ m, (if L ≠ 0 then (Except.error PyErr.invalidLen : Except PyErr Msg)
        else .ok mk) = .ok m) ↔ L = 0)
    ∧ (L ≠ 0 → (if L ≠ 0 then (Except.error PyErr.invalidLen : Except PyErr Msg)
        else .ok mk) = .error .invalidLen) := by
  by_cases h : L = 0 <;> simp [h]

/-! ## Claim C10: too-short buffers raise `InvalidLen` in the factory -/

/-- **C10.** `deserialize_message` on a buffer shorter than two bytes
(empty or a single byte) raises `InvalidLen` — the `IndexError` from
reading the opcode at index 1 is re-raised as `InvalidLen`, not
`InvalidOpcode`. -/
theorem C10_theorem (data : List Nat) (h : data.length < 2) :
    deserialize_message data = .error .invalidLen := by
  unfold deserialize_message
  have hg : data.get? 1 = none := List.get?_eq_none.mpr (by omega)
  rw [hg]

/-- **C10, witness.** The single-byte buffer `00`. -/
theorem C10_witness : deserialize_message [0x00] = .error .invalidLen :=
  C10_theorem [0x00] (by decide)

/-! ## Claim C8: the `ModelDesc` conditional configuration block -/

/-- **C8, counterexample.** The identifier 0x0000 is not the sensor-setup
value, yet decoding does not leave the configuration empty after
consuming 2 bytes: it fails with the enum's `ValueError`, because
`ModelID.from_bytes` only accepts the twelve supported model
identifiers. -/
theorem C8_counterexample :
    ModelDesc.deserialize [0x00, 0x00] = .error .valueError
      ∧ isModelID 0x0000 = false :=
  ⟨rfl, by decide⟩

/-- **C8, amended.** Decoding a `ModelDesc` reads a 16-bit little-endian
identifier; an identifier outside the supported `ModelID` enumeration
fails with `ValueError`; when the identifier is the sensor-setup value
0x1101 (and 10 further bytes are available) exactly 10 further bytes are
consumed as the opaque configuration block; for every other supported
identifier the configuration stays empty and exactly 2 bytes are
consumed. -/
theorem C8_theorem (s : List Nat) (v : Nat) (hv : v = le_bytes (s.take 2))
    (h2 : 2 ≤ s.length) :
    (isModelID v = false → ModelDesc.deserialize s = .error .valueError)
    ∧ (isModelID v = true → v = 0x1101 → 12 ≤ s.length →
        ModelDesc.deserialize s = .ok (⟨v, (s.drop 2).take 10⟩, s.drop 12)
        ∧ ((s.drop 2).take 10).length = 10)
    ∧ (isModelID v = true → v ≠ 0x1101 →
        ModelDesc.deserialize s = .ok (⟨v, []⟩, s.drop 2)) := by
  have hrb : readBytes 2 s = (s.take 2, s.drop 2) := by
    simp [readBytes]
  have hrb10 : readBytes 10 (s.drop 2) = ((s.drop 2).take 10, (s.drop 2).drop 10) := by
    simp [readBytes]
  refine ⟨?_, ?_, ?_⟩
  · intro hno
    simp only [ModelDesc.deserialize, hrb, ← hv, hno]
    simp
  · intro hyes hsensor hlen
    subst hsensor
    refine ⟨?_, ?_⟩
    · simp only [ModelDesc.deserialize, hrb, ← hv, hyes, hrb10]
      simp [List.drop_drop]
    · simp only [List.length_take, List.length_drop]
      omega
  · intro hyes hne
    simp only [ModelDesc.deserialize, hrb, ← hv, hyes]
    simp [hne]

/-- **C8, witness.** A sensor-setup descriptor consuming its 10-byte
configuration, and a plain descriptor consuming exactly 2 bytes. -/
theorem C8_witness :
    ModelDesc.deserialize [0x01, 0x11, 0, 1, 2, 3, 4, 5, 6, 7, 8, 9]
        = .ok (⟨0x1101, [0, 1, 2, 3, 4, 5, 6, 7, 8, 9]⟩, [])
      ∧ ModelDesc.deserialize [0x01, 0x10, 9]
        = .ok (⟨0x1001, []⟩, [9]) := by
  have h1 := ((C8_theorem [0x01, 0x11, 0, 1, 2, 3, 4, 5, 6, 7, 8, 9] 0x1101
    (by decide) (by decide)).2.1 (by decide) rfl (by decide)).1
  have h2 := (C8_theorem [0x01, 0x10, 9] 0x1001
    (by decide) (by decide)).2.2 (by decide) (by decide)
  exact ⟨by simpa using h1, by simpa using h2⟩

/-! ## Claim C5: zero-payload variants require LENGTH exactly 0 -/

/-- **C5.** For every zero-payload variant, decoding a buffer whose
opcode byte matches the variant succeeds exactly when the LENGTH byte is
0, and raises `InvalidLen` for every nonzero LENGTH. -/
theorem C5_theorem (data : List Nat) (ty L : Nat)
    (hty : ty ∈ zeroPayloadOpcodes)
    (hop : data.get? 1 = some ty) (hL : data.get? 0 = some L) :
    ((∃ m, deserialize_message data = .ok m) ↔ L = 0)
    ∧ (L ≠ 0 → deserialize_message data = .error .invalidLen) := by
  cases data with
  | nil => simp at hop
  | cons b0 t =>
    cases t with
    | nil => simp at hop
    | cons b1 rest =>
      simp only [List.get?] at hop hL
      obtain rfl : b1 = ty := by injection hop
      obtain rfl : b0 = L := by injection hL
      simp only [zeroPayloadOpcodes, List.mem_cons, List.not_mem_nil, or_false] at hty
      have hd : ∀ mk : Msg, deserialize_zero_payload b1 mk (b0 :: b1 :: rest)
          = if b0 ≠ 0 then .error .invalidLen else .ok mk :=
        fun mk => zero_payload_spec b1 mk b0 rest
      rcases hty with rfl | rfl | rfl | rfl | rfl | rfl | rfl | rfl | rfl |
        rfl | rfl | rfl | rfl | rfl | rfl | rfl | rfl <;>
      · simp only [deserialize_message, List.get?, decode_with]
        norm_num
        rw [hd]
        exact zero_if_spec _ b0

/-- **C5, witness.** The spec's concrete case: `02 09 AA BB` (a
StartNodeRequest with LENGTH 2) raises `InvalidLen`. -/
theorem C5_witness :
    deserialize_message [0x02, 0x09, 0xAA, 0xBB] = .error .invalidLen :=
  (C5_theorem [0x02, 0x09, 0xAA, 0xBB] 0x09 0x02 (by decide) (by decide)
    (by decide)).2 (by decide)

/-! ## Decoder error taxonomy lemmas -/

theorem ModelDesc_deserialize_error (s : List Nat) (e : PyErr)
    (h : ModelDesc.deserialize s = .error e) : e = .valueError := by
  rcases hrb : readBytes 2 s with ⟨b, s1⟩
  simp only [ModelDesc.deserialize, hrb] at h
  split at h
  · split at h <;> cases h
  · cases h; rfl

theorem read_model_ids_ne (L : Int) (s : List Nat) :
    read_model_ids L s ≠ .error .invalidOpcode := by
  suffices h : ∀ n (L : Int) (s : List Nat), L.toNat ≤ n →
      read_model_ids L s ≠ .error .invalidOpcode from h L.toNat L s le_rfl
  intro n
  induction n with
  | zero =>
    intro L s hL
    rw [read_model_ids.eq_def, dif_neg (by omega : ¬ (2 : Int) ≤ L)]
    split <;> simp
  | succ n ih =>
    intro L s hL
    rw [read_model_ids.eq_def]
    by_cases h2 : 2 ≤ L
    · rw [dif_pos h2]
      split
      split
      · dsimp only
        split <;> simp
      · rename_i e heq
        dsimp only
        split
        · intro hcon
          have he : e = PyErr.invalidOpcode := by injection hcon
          subst he
          exact ih (L - 2) _ (by omega) heq
        · simp
    · rw [dif_neg h2]
      split <;> simp

theorem read_model_descs_ne (L : Int) (s : List Nat) :
    read_model_descs L s ≠ .error .invalidOpcode := by
  suffices h : ∀ n (L : Int) (s : List Nat), L.toNat ≤ n →
      read_model_descs L s ≠ .error .invalidOpcode from h L.toNat L s le_rfl
  intro n
  induction n with
  | zero =>
    intro L s hL
    rw [read_model_descs.eq_def, dif_neg (by omega : ¬ (2 : Int) ≤ L)]
    split <;> simp
  | succ n ih =>
    intro L s hL
    rw [read_model_descs.eq_def]
    by_cases h2 : 2 ≤ L
    · rw [dif_pos h2]
      split
      · rename_i e heq
        have he : e = PyErr.valueError := ModelDesc_deserialize_error _ _ heq
        subst he
        simp
      · rename_i d s1 heq
        split
        · simp
        · rename_i e heq2
          intro hcon
          have he : e = PyErr.invalidOpcode := by injection hcon
          subst he
          have hd : 2 ≤ (d.get_length : Int) := by
            have h2d : 2 ≤ d.get_length := by unfold ModelDesc.get_length; omega
            exact_mod_cast h2d
          exact ih (L - d.get_length) _ (by omega) heq2
    · rw [dif_neg h2]
      split <;> simp

/-! ## Per-decoder opcode behaviour: an opcode byte that differs from
the decoder's type raises `InvalidOpcode`; a matching opcode byte never
does. -/

theorem mismatch_zero (ty : Nat) (mk : Msg) (b0 b1 : Nat) (rest : List Nat)
    (h : b1 ≠ ty) :
    deserialize_zero_payload ty mk (b0 :: b1 :: rest) = .error .invalidOpcode := by
  simp only [deserialize_zero_payload]
  rw [common_part_cons, if_neg h]

theorem ne_zero (ty : Nat) (mk : Msg) (b0 : Nat) (rest : List Nat) :
    deserialize_zero_payload ty mk (b0 :: ty :: rest) ≠ .error .invalidOpcode := by
  rw [zero_payload_spec]
  split <;> simp

theorem mismatch_blob (ty : Nat) (mk : List Nat → Msg) (b0 b1 : Nat)
    (rest : List Nat) (h : b1 ≠ ty) :
    deserialize_blob ty mk (b0 :: b1 :: rest) = .error .invalidOpcode := by
  simp only [deserialize_blob]
  rw [common_part_cons, if_neg h]

theorem ne_blob (ty : Nat) (mk : List Nat → Msg) (b0 : Nat) (rest : List Nat) :
    deserialize_blob ty mk (b0 :: ty :: rest) ≠ .error .invalidOpcode := by
  simp only [deserialize_blob]
  rw [common_part_cons, if_pos rfl]
  dsimp only
  repeat' split
  all_goals simp

theorem mismatch_enum (ty : Nat) (valid : List Nat) (mk : Nat → Msg)
    (b0 b1 : Nat) (rest : List Nat) (h : b1 ≠ ty) :
    deserialize_enum_field ty valid mk (b0 :: b1 :: rest)
      = .error .invalidOpcode := by
  simp only [deserialize_enum_field]
  rw [common_part_cons, if_neg h]

theorem ne_enum (ty : Nat) (valid : List Nat) (mk : Nat → Msg) (b0 : Nat)
    (rest : List Nat) :
    deserialize_enum_field ty valid mk (b0 :: ty :: rest)
      ≠ .error .invalidOpcode := by
  simp only [deserialize_enum_field]
  rw [common_part_cons, if_pos rfl]
  dsimp only
  repeat' split
  all_goals simp

theorem mismatch_model_id_list (ty : Nat) (mk : List Nat → Msg) (b0 b1 : Nat)
    (rest : List Nat) (h : b1 ≠ ty) :
    deserialize_model_id_list ty mk (b0 :: b1 :: rest)
      = .error .invalidOpcode := by
  simp only [deserialize_model_id_list]
  rw [common_part_cons, if_neg h]

theorem ne_model_id_list (ty : Nat) (mk : List Nat → Msg) (b0 : Nat)
    (rest : List Nat) :
    deserialize_model_id_list ty mk (b0 :: ty :: rest)
      ≠ .error .invalidOpcode := by
  simp only [deserialize_model_id_list]
  rw [common_part_cons, if_pos rfl]
  dsimp only
  split
  · simp
  · rename_i e heq
    intro hcon
    have he : e = PyErr.invalidOpcode := by injection hcon
    subst he
    exact read_model_ids_ne _ _ heq

theorem mismatch_create_instances (b0 b1 : Nat) (rest : List Nat)
    (h : b1 ≠ 0x04) :
    deserialize_create_instances_request (b0 :: b1 :: rest)
      = .error .invalidOpcode := by
  simp only [deserialize_create_instances_request]
  rw [common_part_cons, if_neg h]

theorem ne_create_instances (b0 : Nat) (rest : List Nat) :
    deserialize_create_instances_request (b0 :: 0x04 :: rest)
      ≠ .error .invalidOpcode := by
  simp only [deserialize_create_instances_request]
  rw [common_part_cons, if_pos rfl]
  dsimp only
  split
  · simp
  · rename_i e heq
    intro hcon
    have he : e = PyErr.invalidOpcode := by injection hcon
    subst he
    exact read_model_descs_ne _ _ heq

theorem mismatch_mesh_request (b0 b1 : Nat) (rest : List Nat) (h : b1 ≠ 0x07) :
    deserialize_mesh_message_request (b0 :: b1 :: rest)
      = .error .invalidOpcode := by
  simp only [deserialize_mesh_message_request]
  rw [common_part_cons, if_neg h]

theorem ne_mesh_request (b0 : Nat) (rest : List Nat) :
    deserialize_mesh_message_request (b0 :: 0x07 :: rest)
      ≠ .error .invalidOpcode := by
  simp only [deserialize_mesh_message_request]
  rw [common_part_cons, if_pos rfl]
  dsimp only
  repeat' split
  all_goals simp

theorem mismatch_mesh_response (b0 b1 : Nat) (rest : List Nat) (h : b1 ≠ 0x0F) :
    deserialize_mesh_message_response (b0 :: b1 :: rest)
      = .error .invalidOpcode := by
  simp only [deserialize_mesh_message_response]
  rw [common_part_cons, if_neg h]

theorem ne_mesh_response (b0 : Nat) (rest : List Nat) :
    deserialize_mesh_message_response (b0 :: 0x0F :: rest)
      ≠ .error .invalidOpcode := by
  simp only [deserialize_mesh_message_response]
  rw [common_part_cons, if_pos rfl]
  dsimp only
  repeat' split
  all_goals simp

theorem mismatch_fw_version (b0 b1 : Nat) (rest : List Nat) (h : b1 ≠ 0x14) :
    deserialize_firmware_version_response (b0 :: b1 :: rest)
      = .error .invalidOpcode := by
  simp only [deserialize_firmware_version_response]
  rw [common_part_cons, if_neg h]

theorem ne_fw_version (b0 : Nat) (rest : List Nat) :
    deserialize_firmware_version_response (b0 :: 0x14 :: rest)
      ≠ .error .invalidOpcode := by
  simp only [deserialize_firmware_version_response]
  rw [common_part_cons, if_pos rfl]
  dsimp only
  repeat' split
  all_goals simp

theorem mismatch_sensor_update (b0 b1 : Nat) (rest : List Nat) (h : b1 ≠ 0x15) :
    deserialize_sensor_update_request (b0 :: b1 :: rest)
      = .error .invalidOpcode := by
  simp only [deserialize_sensor_update_request]
  rw [common_part_cons, if_neg h]

theorem ne_sensor_update (b0 : Nat) (rest : List Nat) :
    deserialize_sensor_update_request (b0 :: 0x15 :: rest)
      ≠ .error .invalidOpcode := by
  simp only [deserialize_sensor_update_request]
  rw [common_part_cons, if_pos rfl]
  dsimp only
  repeat' split
  all_goals simp

theorem mismatch_uuid (b0 b1 : Nat) (rest : List Nat) (h : b1 ≠ 0x1B) :
    deserialize_device_uuid_response (b0 :: b1 :: rest)
      = .error .invalidOpcode := by
  simp only [deserialize_device_uuid_response]
  rw [common_part_cons, if_neg h]

theorem ne_uuid (b0 : Nat) (rest : List Nat) :
    deserialize_device_uuid_response (b0 :: 0x1B :: rest)
      ≠ .error .invalidOpcode := by
  simp only [deserialize_device_uuid_response]
  rw [common_part_cons, if_pos rfl]
  dsimp only
  repeat' split
  all_goals simp

theorem mismatch_dfu_init (b0 b1 : Nat) (rest : List Nat) (h : b1 ≠ 0x80) :
    deserialize_dfu_init_request (b0 :: b1 :: rest) = .error .invalidOpcode := by
  simp only [deserialize_dfu_init_request]
  rw [common_part_cons, if_neg h]

theorem ne_dfu_init (b0 : Nat) (rest : List Nat) :
    deserialize_dfu_init_request (b0 :: 0x80 :: rest) ≠ .error .invalidOpcode := by
  simp only [deserialize_dfu_init_request]
  rw [common_part_cons, if_pos rfl]
  dsimp only
  repeat' split
  all_goals simp

theorem mismatch_dfu_status (b0 b1 : Nat) (rest : List Nat) (h : b1 ≠ 0x83) :
    deserialize_dfu_status_response (b0 :: b1 :: rest)
      = .error .invalidOpcode := by
  simp only [deserialize_dfu_status_response]
  rw [common_part_cons, if_neg h]

theorem ne_dfu_status (b0 : Nat) (rest : List Nat) :
    deserialize_dfu_status_response (b0 :: 0x83 :: rest)
      ≠ .error .invalidOpcode := by
  simp only [deserialize_dfu_status_response]
  rw [common_part_cons, if_pos rfl]
  dsimp only
  repeat' split
  all_goals simp

theorem mismatch_dfu_page_create (b0 b1 : Nat) (rest : List Nat)
    (h : b1 ≠ 0x84) :
    deserialize_dfu_page_create_request (b0 :: b1 :: rest)
      = .error .invalidOpcode := by
  simp only [deserialize_dfu_page_create_request]
  rw [common_part_cons, if_neg h]

theorem ne_dfu_page_create (b0 : Nat) (rest : List Nat) :
    deserialize_dfu_page_create_request (b0 :: 0x84 :: rest)
      ≠ .error .invalidOpcode := by
  simp only [deserialize_dfu_page_create_request]
  rw [common_part_cons, if_pos rfl]
  dsimp only
  repeat' split
  all_goals simp

theorem mismatch_dfu_write (b0 b1 : Nat) (rest : List Nat) (h : b1 ≠ 0x86) :
    deserialize_dfu_write_data_event (b0 :: b1 :: rest)
      = .error .invalidOpcode := by
  simp only [deserialize_dfu_write_data_event]
  rw [common_part_cons, if_neg h]

theorem ne_dfu_write (b0 : Nat) (rest : List Nat) :
    deserialize_dfu_write_data_event (b0 :: 0x86 :: rest)
      ≠ .error .invalidOpcode := by
  simp only [deserialize_dfu_write_data_event]
  rw [common_part_cons, if_pos rfl]
  dsimp only
  repeat' split
  all_goals simp

theorem mismatch_start_test (b0 b1 : Nat) (rest : List Nat) (h : b1 ≠ 0x20) :
    deserialize_start_test_request (b0 :: b1 :: rest)
      = .error .invalidOpcode := by
  simp only [deserialize_start_test_request]
  rw [common_part_cons, if_neg h]

theorem ne_start_test (b0 : Nat) (rest : List Nat) :
    deserialize_start_test_request (b0 :: 0x20 :: rest)
      ≠ .error .invalidOpcode := by
  simp only [deserialize_start_test_request]
  rw [common_part_cons, if_pos rfl]
  dsimp only
  repeat' split
  all_goals simp


/-! ## Claim C6: opcode mismatch handling -/

/-! Registry dispatch equations, one per registered concrete opcode. -/

theorem dw_01 (data : List Nat) :
    decode_with 0x01 data = deserialize_blob 0x01 Msg.pingRequest data := rfl

theorem dw_02 (data : List Nat) :
    decode_with 0x02 data = deserialize_blob 0x02 Msg.pongResponse data := rfl

theorem dw_03 (data : List Nat) :
    decode_with 0x03 data = deserialize_model_id_list 0x03 Msg.initDeviceEvent data := rfl

theorem dw_04 (data : List Nat) :
    decode_with 0x04 data = deserialize_create_instances_request data := rfl

theorem dw_05 (data : List Nat) :
    decode_with 0x05 data = deserialize_model_id_list 0x05 Msg.createInstancesResponse data := rfl

theorem dw_06 (data : List Nat) :
    decode_with 0x06 data = deserialize_model_id_list 0x06 Msg.initNodeEvent data := rfl

theorem dw_07 (data : List Nat) :
    decode_with 0x07 data = deserialize_mesh_message_request data := rfl

theorem dw_09 (data : List Nat) :
    decode_with 0x09 data = deserialize_zero_payload 0x09 .startNodeRequest data := rfl

theorem dw_0B (data : List Nat) :
    decode_with 0x0B data = deserialize_zero_payload 0x0B .startNodeResponse data := rfl

theorem dw_0C (data : List Nat) :
    decode_with 0x0C data = deserialize_zero_payload 0x0C .factoryResetRequest data := rfl

theorem dw_0D (data : List Nat) :
    decode_with 0x0D data = deserialize_zero_payload 0x0D .factoryResetResponse data := rfl

theorem dw_0E (data : List Nat) :
    decode_with 0x0E data = deserialize_zero_payload 0x0E .factoryResetEvent data := rfl

theorem dw_0F (data : List Nat) :
    decode_with 0x0F data = deserialize_mesh_message_response data := rfl

theorem dw_10 (data : List Nat) :
    decode_with 0x10 data = deserialize_zero_payload 0x10 .currentStateRequest data := rfl

theorem dw_11 (data : List Nat) :
    decode_with 0x11 data = deserialize_enum_field 0x11 ModemState_values .currentStateResponse data := rfl

theorem dw_12 (data : List Nat) :
    decode_with 0x12 data = deserialize_enum_field 0x12 Error_values .errorMessage data := rfl

theorem dw_13 (data : List Nat) :
    decode_with 0x13 data = deserialize_zero_payload 0x13 .firmwareVersionRequest data := rfl

theorem dw_14 (data : List Nat) :
    decode_with 0x14 data = deserialize_firmware_version_response data := rfl

theorem dw_15 (data : List Nat) :
    decode_with 0x15 data = deserialize_sensor_update_request data := rfl

theorem dw_16 (data : List Nat) :
    decode_with 0x16 data = deserialize_enum_field 0x16 AttentionEvent_values .attentionEventMessage data := rfl

theorem dw_17 (data : List Nat) :
    decode_with 0x17 data = deserialize_zero_payload 0x17 .softResetRequest data := rfl

theorem dw_18 (data : List Nat) :
    decode_with 0x18 data = deserialize_zero_payload 0x18 .softResetResponse data := rfl

theorem dw_19 (data : List Nat) :
    decode_with 0x19 data = deserialize_zero_payload 0x19 .sensorUpdateResponse data := rfl

theorem dw_1A (data : List Nat) :
    decode_with 0x1A data = deserialize_zero_payload 0x1A .deviceUUIDRequest data := rfl

theorem dw_1B (data : List Nat) :
    decode_with 0x1B data = deserialize_device_uuid_response data := rfl

theorem dw_20 (data : List Nat) :
    decode_with 0x20 data = deserialize_start_test_request data := rfl

theorem dw_21 (data : List Nat) :
    decode_with 0x21 data = deserialize_zero_payload 0x21 .startTestResponse data := rfl

theorem dw_80 (data : List Nat) :
    decode_with 0x80 data = deserialize_dfu_init_request data := rfl

theorem dw_81 (data : List Nat) :
    decode_with 0x81 data = deserialize_enum_field 0x81 DFUStatus_values .dfuInitResponse data := rfl

theorem dw_82 (data : List Nat) :
    decode_with 0x82 data = deserialize_zero_payload 0x82 .dfuStatusRequest data := rfl

theorem dw_83 (data : List Nat) :
    decode_with 0x83 data = deserialize_dfu_status_response data := rfl

theorem dw_84 (data : List Nat) :
    decode_with 0x84 data = deserialize_dfu_page_create_request data := rfl

theorem dw_85 (data : List Nat) :
    decode_with 0x85 data = deserialize_enum_field 0x85 DFUStatus_values .dfuPageCreateResponse data := rfl

theorem dw_86 (data : List Nat) :
    decode_with 0x86 data = deserialize_dfu_write_data_event data := rfl

theorem dw_87 (data : List Nat) :
    decode_with 0x87 data = deserialize_zero_payload 0x87 .dfuPageStoreRequest data := rfl

theorem dw_88 (data : List Nat) :
    decode_with 0x88 data = deserialize_enum_field 0x88 DFUStatus_values .dfuPageStoreResponse data := rfl

theorem dw_89 (data : List Nat) :
    decode_with 0x89 data = deserialize_zero_payload 0x89 .dfuStateRequest data := rfl

theorem dw_8A (data : List Nat) :
    decode_with 0x8A data = deserialize_enum_field 0x8A DfuStatus_values .dfuStateResponse data := rfl

theorem dw_8B (data : List Nat) :
    decode_with 0x8B data = deserialize_zero_payload 0x8B .dfuCancelRequest data := rfl

theorem dw_8C (data : List Nat) :
    decode_with 0x8C data = deserialize_zero_payload 0x8C .dfuCancelResponse data := rfl


theorem deserialize_message_cons (b0 b1 : Nat) (rest : List Nat) :
    deserialize_message (b0 :: b1 :: rest) = decode_with b1 (b0 :: b1 :: rest) := rfl

/-- An opcode outside `UART_CLASSES` is a `KeyError`, re-raised as
`InvalidOpcode`. -/
theorem decode_with_unregistered (c : Nat) (data : List Nat)
    (h : c ∉ registryOpcodes) :
    decode_with c data = .error .invalidOpcode := by
  simp only [registryOpcodes, List.mem_cons, List.not_mem_nil, or_false] at h
  push_neg at h
  obtain ⟨h1, h2, h3, h4, h5, h6, h7, h8, h9, h10, h11, h12, h13, h14, h15, h16, h17, h18, h19, h20, h21, h22, h23, h24, h25, h26, h27, h28, h29, h30, h31, h32, h33, h34, h35, h36, h37, h38, h39, h40, h41⟩ := h
  simp [decode_with, h1, h2, h3, h4, h5, h6, h7, h8, h9, h10, h11, h12, h13, h14, h15, h16, h17, h18, h19, h20, h21, h22, h23, h24, h25, h26, h27, h28, h29, h30, h31, h32, h33, h34, h35, h36, h37, h38, h39, h40, h41]

set_option maxHeartbeats 1000000 in
/-- **C6.** For every registered message decoder and every input of at
least two bytes, decoding raises `InvalidOpcode` exactly on an opcode
byte that differs from the opcode the decoder was invoked for: a
differing byte always raises it, a matching byte never does.
`deserialize_message` raises `InvalidOpcode` when the buffer's second
byte is not a registered opcode. -/
theorem C6_theorem (data : List Nat) (cmd : Nat) (hlen : 2 ≤ data.length) :
    (cmd ∈ variantOpcodes →
      (data.get? 1 ≠ some cmd → decode_with cmd data = .error .invalidOpcode)
      ∧ (data.get? 1 = some cmd → decode_with cmd data ≠ .error .invalidOpcode))
    ∧ (data.get? 1 = some cmd → cmd ∉ registryOpcodes →
        deserialize_message data = .error .invalidOpcode) := by
  obtain ⟨b0, b1, rest, rfl⟩ : ∃ b0 b1 rest, data = b0 :: b1 :: rest := by
    cases data with
    | nil => simp at hlen
    | cons a t =>
      cases t with
      | nil => simp at hlen
      | cons b u => exact ⟨a, b, u, rfl⟩
  have hget : (b0 :: b1 :: rest).get? 1 = some b1 := rfl
  constructor
  · intro hmem
    constructor
    · intro hne
      have hb : b1 ≠ cmd := by
        intro h
        exact hne (by rw [hget, h])
      simp only [variantOpcodes, List.mem_cons, List.not_mem_nil, or_false] at hmem
      rcases hmem with rfl | rfl | rfl | rfl | rfl | rfl | rfl | rfl | rfl | rfl | rfl | rfl | rfl | rfl | rfl | rfl | rfl | rfl | rfl | rfl | rfl | rfl | rfl | rfl | rfl | rfl | rfl | rfl | rfl | rfl | rfl | rfl | rfl | rfl | rfl | rfl | rfl | rfl | rfl | rfl <;>
      · (first
        | rw [dw_01]
        | rw [dw_02]
        | rw [dw_03]
        | rw [dw_04]
        | rw [dw_05]
        | rw [dw_06]
        | rw [dw_07]
        | rw [dw_09]
        | rw [dw_0B]
        | rw [dw_0C]
        | rw [dw_0D]
        | rw [dw_0E]
        | rw [dw_0F]
        | rw [dw_10]
        | rw [dw_11]
        | rw [dw_12]
        | rw [dw_13]
        | rw [dw_14]
        | rw [dw_15]
        | rw [dw_16]
        | rw [dw_17]
        | rw [dw_18]
        | rw [dw_19]
        | rw [dw_1A]
        | rw [dw_1B]
        | rw [dw_20]
        | rw [dw_21]
        | rw [dw_80]
        | rw [dw_81]
        | rw [dw_82]
        | rw [dw_83]
        | rw [dw_84]
        | rw [dw_85]
        | rw [dw_86]
        | rw [dw_87]
        | rw [dw_88]
        | rw [dw_89]
        | rw [dw_8A]
        | rw [dw_8B]
        | rw [dw_8C])
        first
        | exact mismatch_zero _ _ _ _ _ hb
        | exact mismatch_blob _ _ _ _ _ hb
        | exact mismatch_enum _ _ _ _ _ _ hb
        | exact mismatch_model_id_list _ _ _ _ _ hb
        | exact mismatch_create_instances _ _ _ hb
        | exact mismatch_mesh_request _ _ _ hb
        | exact mismatch_mesh_response _ _ _ hb
        | exact mismatch_fw_version _ _ _ hb
        | exact mismatch_sensor_update _ _ _ hb
        | exact mismatch_uuid _ _ _ hb
        | exact mismatch_dfu_init _ _ _ hb
        | exact mismatch_dfu_status _ _ _ hb
        | exact mismatch_dfu_page_create _ _ _ hb
        | exact mismatch_dfu_write _ _ _ hb
        | exact mismatch_start_test _ _ _ hb
    · intro heqq
      obtain rfl : b1 = cmd := by
        rw [hget] at heqq
        injection heqq
      simp only [variantOpcodes, List.mem_cons, List.not_mem_nil, or_false] at hmem
      rcases hmem with rfl | rfl | rfl | rfl | rfl | rfl | rfl | rfl | rfl | rfl | rfl | rfl | rfl | rfl | rfl | rfl | rfl | rfl | rfl | rfl | rfl | rfl | rfl | rfl | rfl | rfl | rfl | rfl | rfl | rfl | rfl | rfl | rfl | rfl | rfl | rfl | rfl | rfl | rfl | rfl <;>
      · (first
        | rw [dw_01]
        | rw [dw_02]
        | rw [dw_03]
        | rw [dw_04]
        | rw [dw_05]
        | rw [dw_06]
        | rw [dw_07]
        | rw [dw_09]
        | rw [dw_0B]
        | rw [dw_0C]
        | rw [dw_0D]
        | rw [dw_0E]
        | rw [dw_0F]
        | rw [dw_10]
        | rw [dw_11]
        | rw [dw_12]
        | rw [dw_13]
        | rw [dw_14]
        | rw [dw_15]
        | rw [dw_16]
        | rw [dw_17]
        | rw [dw_18]
        | rw [dw_19]
        | rw [dw_1A]
        | rw [dw_1B]
        | rw [dw_20]
        | rw [dw_21]
        | rw [dw_80]
        | rw [dw_81]
        | rw [dw_82]
        | rw [dw_83]
        | rw [dw_84]
        | rw [dw_85]
        | rw [dw_86]
        | rw [dw_87]
        | rw [dw_88]
        | rw [dw_89]
        | rw [dw_8A]
        | rw [dw_8B]
        | rw [dw_8C])
        first
        | exact ne_zero _ _ _ _
        | exact ne_blob _ _ _ _
        | exact ne_enum _ _ _ _ _
        | exact ne_model_id_list _ _ _ _
        | exact ne_create_instances _ _
        | exact ne_mesh_request _ _
        | exact ne_mesh_response _ _
        | exact ne_fw_version _ _
        | exact ne_sensor_update _ _
        | exact ne_uuid _ _
        | exact ne_dfu_init _ _
        | exact ne_dfu_status _ _
        | exact ne_dfu_page_create _ _
        | exact ne_dfu_write _ _
        | exact ne_start_test _ _
  · intro heqq hreg
    obtain rfl : b1 = cmd := by
      rw [hget] at heqq
      injection heqq
    rw [deserialize_message_cons]
    exact decode_with_unregistered _ _ hreg

/-- **C6, witness.** The ping decoder (opcode 0x01) on the test buffer
`01 AB AA` raises `InvalidOpcode`; on the matching buffer `01 01 AA` it
does not; and dispatching a buffer whose second byte 0xAB is not a
registered opcode raises `InvalidOpcode`. -/
theorem C6_witness :
    decode_with 0x01 [0x01, 0xAB, 0xAA] = .error .invalidOpcode
    ∧ decode_with 0x01 [0x01, 0x01, 0xAA] ≠ .error .invalidOpcode
    ∧ deserialize_message [0x01, 0xAB, 0xAA] = .error .invalidOpcode := by
  refine ⟨?_, ?_, ?_⟩
  · exact ((C6_theorem [0x01, 0xAB, 0xAA] 0x01 (by decide)).1 (by decide)).1 (by decide)
  · exact ((C6_theorem [0x01, 0x01, 0xAA] 0x01 (by decide)).1 (by decide)).2 (by decide)
  · exact (C6_theorem [0x01, 0xAB, 0xAA] 0xAB (by decide)).2 (by decide) (by decide)

/-! ## Claim C7: DFU internal length sub-fields -/

/-- Characterization of `DfuWriteDataEventMessage.deserialize` on a
buffer with the matching opcode. -/
theorem dfu_write_spec (b0 : Nat) (rest : List Nat) :
    deserialize_dfu_write_data_event (b0 :: 0x86 :: rest)
      = (if (b0 : Int) - 1 ≠ (le_bytes (rest.take 1) : Int)
         then Except.error PyErr.invalidLen
         else if (le_bytes (rest.take 1) : Int)
             ≠ (((rest.drop 1).take (le_bytes (rest.take 1))).length : Int)
           then .error .invalidLen
           else .ok (.dfuWriteDataEvent (le_bytes (rest.take 1))
               ((rest.drop 1).take (le_bytes (rest.take 1))))) := by
  have h1 : readBytes 1 rest = (rest.take 1, rest.drop 1) := by
    simp [readBytes]
  have h2 : readBytes ((le_bytes (rest.take 1) : Nat) : Int) (rest.drop 1)
      = ((rest.drop 1).take (le_bytes (rest.take 1)),
         (rest.drop 1).drop (le_bytes (rest.take 1))) := by
    simp [readBytes]
  simp only [deserialize_dfu_write_data_event]
  rw [common_part_cons, if_pos rfl]
  simp only [h1]
  by_cases hne : (b0 : Int) - 1 = (le_bytes (rest.take 1) : Int)
  · rw [if_neg (not_not_intro hne), if_neg (not_not_intro hne), hne, h2]
  · rw [if_pos hne, if_pos hne]

/-- Characterization of `DfuInitRequestMessage.deserialize` on a buffer
with the matching opcode. -/
theorem dfu_init_spec (b0 : Nat) (rest : List Nat) :
    deserialize_dfu_init_request (b0 :: 0x80 :: rest)
      = (if (b0 : Int) - (4 + 32 + 1) ≠ (le_bytes ((rest.drop 36).take 1) : Int)
         then Except.error PyErr.invalidLen
         else if (le_bytes ((rest.drop 36).take 1) : Int)
             ≠ (((rest.drop 37).take (le_bytes ((rest.drop 36).take 1))).length : Int)
           then .error .invalidLen
           else .ok (.dfuInitRequest (le_bytes (rest.take 4))
               ((rest.drop 4).take 32)
               (le_bytes ((rest.drop 36).take 1))
               ((rest.drop 37).take (le_bytes ((rest.drop 36).take 1))))) := by
  have h1 : readBytes 4 rest = (rest.take 4, rest.drop 4) := by
    simp [readBytes]
  have h2 : readBytes 32 (rest.drop 4) = ((rest.drop 4).take 32, rest.drop 36) := by
    simp [readBytes, List.drop_drop]
  have h3 : readBytes 1 (rest.drop 36) = ((rest.drop 36).take 1, rest.drop 37) := by
    simp [readBytes, List.drop_drop]
  have h4 : readBytes ((le_bytes ((rest.drop 36).take 1) : Nat) : Int) (rest.drop 37)
      = ((rest.drop 37).take (le_bytes ((rest.drop 36).take 1)),
         (rest.drop 37).drop (le_bytes ((rest.drop 36).take 1))) := by
    simp [readBytes]
  simp only [deserialize_dfu_init_request]
  rw [common_part_cons, if_pos rfl]
  simp only [h1, h2, h3]
  by_cases hne : (b0 : Int) - (4 + 32 + 1) = (le_bytes ((rest.drop 36).take 1) : Int)
  · rw [if_neg (not_not_intro hne), if_neg (not_not_intro hne), hne, h4]
  · rw [if_pos hne, if_pos hne]

/-- **C7.** For `DfuInitRequest` and `DfuWriteDataEvent` — the DFU
messages with an internal app-data/data length sub-field — decoding
raises `InvalidLen` whenever the frame LENGTH minus the sizes of the
fixed fields already read (37 and 1 respectively) differs from the
embedded length sub-field; when they agree and that many bytes are
available, decoding succeeds. -/
theorem C7_theorem (data : List Nat) (L : Nat) (hL : data.get? 0 = some L) :
    (data.get? 1 = some 0x80 →
      ((L : Int) - 37 ≠ (le_bytes ((data.drop 38).take 1) : Int) →
        deserialize_dfu_init_request data = .error .invalidLen)
      ∧ ((L : Int) - 37 = (le_bytes ((data.drop 38).take 1) : Int) →
          39 + le_bytes ((data.drop 38).take 1) ≤ data.length →
          ∃ m, deserialize_dfu_init_request data = .ok m))
    ∧ (data.get? 1 = some 0x86 →
      ((L : Int) - 1 ≠ (le_bytes ((data.drop 2).take 1) : Int) →
        deserialize_dfu_write_data_event data = .error .invalidLen)
      ∧ ((L : Int) - 1 = (le_bytes ((data.drop 2).take 1) : Int) →
          3 + le_bytes ((data.drop 2).take 1) ≤ data.length →
          ∃ m, deserialize_dfu_write_data_event data = .ok m)) := by
  cases data with
  | nil => simp at hL
  | cons b0 t =>
    cases t with
    | nil =>
      simp only [List.get?] at hL
      obtain rfl : b0 = L := by injection hL
      constructor <;> · intro hop; simp at hop
    | cons b1 rest =>
      simp only [List.get?] at hL
      obtain rfl : b0 = L := by injection hL
      have hd38 : (b0 :: b1 :: rest).drop 38 = rest.drop 36 := by simp
      have hd2 : (b0 :: b1 :: rest).drop 2 = rest := by simp
      constructor
      · intro hop
        obtain rfl : b1 = 0x80 := by
          simp only [List.get?] at hop; injection hop
        rw [dfu_init_spec]
        have h37 : ((4 : Int) + 32 + 1) = 37 := by norm_num
        rw [h37, hd38]
        constructor
        · intro hne
          rw [if_pos hne]
        · intro heq havail
          rw [if_neg (not_not_intro heq)]
          have hlen : ((rest.drop 37).take
              (le_bytes ((rest.drop 36).take 1))).length
              = le_bytes ((rest.drop 36).take 1) := by
            simp only [List.length_take, List.length_drop, List.length_cons] at havail ⊢
            omega
          rw [if_neg (by rw [hlen]; simp)]
          exact ⟨_, rfl⟩
      · intro hop
        obtain rfl : b1 = 0x86 := by
          simp only [List.get?] at hop; injection hop
        rw [dfu_write_spec, hd2]
        constructor
        · intro hne
          rw [if_pos hne]
        · intro heq havail
          rw [if_neg (not_not_intro heq)]
          have hlen : ((rest.drop 1).take (le_bytes (rest.take 1))).length
              = le_bytes (rest.take 1) := by
            simp only [List.length_take, List.length_drop, List.length_cons] at havail ⊢
            omega
          rw [if_neg (by rw [hlen]; simp)]
          exact ⟨_, rfl⟩

/-- **C7, witness.** A mismatching and a matching instance for each of
the two decoders: `00 80` and `00 86` raise `InvalidLen` (LENGTH 0
cannot cover the fixed fields), while a consistent `DfuInitRequest`
frame (LENGTH 39 = 37 + 2) and `DfuWriteDataEvent` frame (LENGTH 3 =
1 + 2) decode successfully. -/
theorem C7_witness :
    deserialize_dfu_init_request [0x00, 0x80] = .error .invalidLen
    ∧ (∃ m, deserialize_dfu_init_request
        ([0x27, 0x80, 5, 0, 0, 0] ++ List.replicate 32 7 ++ [2, 9, 9]) = .ok m)
    ∧ deserialize_dfu_write_data_event [0x00, 0x86] = .error .invalidLen
    ∧ (∃ m, deserialize_dfu_write_data_event [0x03, 0x86, 0x02, 3, 4] = .ok m) := by
  refine ⟨?_, ?_, ?_, ?_⟩
  · exact (C7_theorem [0x00, 0x80] 0x00 (by decide)).1 (by decide) |>.1 (by decide)
  · exact (C7_theorem ([0x27, 0x80, 5, 0, 0, 0] ++ List.replicate 32 7 ++ [2, 9, 9])
      0x27 (by decide)).1 (by decide) |>.2 (by decide) (by decide)
  · exact (C7_theorem [0x00, 0x86] 0x00 (by decide)).2 (by decide) |>.1 (by decide)
  · exact (C7_theorem [0x03, 0x86, 0x02, 3, 4] 0x03 (by decide)).2 (by decide)
      |>.2 (by decide) (by decide)

/-! ## Claim C3: serialize/deserialize round trip — byte-level lemmas -/

theorem toBytesLE_pos (w n : Nat) (h : n < 256 ^ w) :
    toBytesLE w n = some (leBytesOf w n) := by
  unfold toBytesLE
  rw [if_pos h]

theorem leBytesOf_length : ∀ (w n : Nat), (leBytesOf w n).length = w := by
  intro w
  induction w with
  | zero => intro n; rfl
  | succ w ih => intro n; simp [leBytesOf, ih]

theorem le_bytes_leBytesOf : ∀ (w n : Nat), le_bytes (leBytesOf w n) = n % 256 ^ w := by
  intro w
  induction w with
  | zero => intro n; simp [leBytesOf, le_bytes, Nat.mod_one]
  | succ w ih =>
    intro n
    rw [leBytesOf, le_bytes, ih, pow_succ, mul_comm (256 ^ w) 256, Nat.mod_mul]

theorem le_bytes_leBytesOf_lt (w n : Nat) (h : n < 256 ^ w) :
    le_bytes (leBytesOf w n) = n := by
  rw [le_bytes_leBytesOf, Nat.mod_eq_of_lt h]

theorem readBytes_exact (k : Nat) (xs rest : List Nat) (h : xs.length = k) :
    readBytes (k : Int) (xs ++ rest) = (xs, rest) := by
  subst h
  simp [readBytes]

theorem serialize_common_spec (L ty : Nat) (hL : L < 256) (hty : ty < 256) :
    serialize_common_part L ty = some [L, ty] := by
  have h1 : L < 256 ^ 1 := by simpa using hL
  have h2 : ty < 256 ^ 1 := by simpa using hty
  simp [serialize_common_part, toBytesLE_pos 1 L h1, toBytesLE_pos 1 ty h2,
    leBytesOf, Nat.mod_eq_of_lt hL, Nat.mod_eq_of_lt hty]

/-! ## Claim C3: list-field round trips -/

theorem contains_lt (l : List Nat) (b v : Nat) (hall : ∀ x ∈ l, x < b)
    (h : l.contains v = true) : v < b :=
  hall v (List.mem_of_elem_eq_true h)

theorem isModelID_lt (v : Nat) (h : isModelID v = true) : v < 65536 :=
  contains_lt ModelID_values 65536 v (by decide) h

theorem model_ids_roundtrip : ∀ (ids rest : List Nat),
    (∀ v ∈ ids, isModelID v = true) →
    ∃ bs, serializeModelIds ids = some bs ∧
      read_model_ids ((2 * ids.length : Nat) : Int) (bs ++ rest) = .ok (ids, rest) := by
  intro ids
  induction ids with
  | nil =>
    intro rest h
    refine ⟨[], rfl, ?_⟩
    rw [read_model_ids.eq_def]
    norm_num
  | cons v ids ih =>
    intro rest h
    have hv : isModelID v = true := h v (by simp)
    have hvlt : v < 65536 := isModelID_lt v hv
    obtain ⟨bs, hser, hread⟩ := ih rest (fun x hx => h x (by simp [hx]))
    refine ⟨leBytesOf 2 v ++ bs, ?_, ?_⟩
    · simp [serializeModelIds, toBytesLE_pos 2 v (by simpa using hvlt), hser]
    · have hlen : (2 * (v :: ids).length : Nat) = 2 * ids.length + 2 := by
        simp; omega
      rw [hlen, read_model_ids.eq_def,
        dif_pos (by push_cast; omega : (2 : Int) ≤ ((2 * ids.length + 2 : Nat) : Int))]
      have hrb : readBytes 2 ((leBytesOf 2 v ++ bs) ++ rest)
          = (leBytesOf 2 v, bs ++ rest) := by
        rw [List.append_assoc]
        exact readBytes_exact 2 _ _ (leBytesOf_length 2 v)
      have harith : ((2 * ids.length + 2 : Nat) : Int) - 2
          = ((2 * ids.length : Nat) : Int) := by push_cast; ring
      simp only [hrb, le_bytes_leBytesOf_lt 2 v (by simpa using hvlt), hv,
        harith, hread]
      simp


theorem ModelDesc_roundtrip (d : ModelDesc) (rest : List Nat)
    (h : ModelDesc.wf d = true) :
    ∃ bs, ModelDesc.serialize d = some bs ∧ bs.length = d.get_length ∧
      ModelDesc.deserialize (bs ++ rest) = .ok (d, rest) := by
  obtain ⟨v, cfg⟩ := d
  simp only [ModelDesc.wf, Bool.and_eq_true] at h
  obtain ⟨hv, hcfg⟩ := h
  have hvlt : v < 65536 := isModelID_lt v hv
  have hser2 : toBytesLE 2 v = some (leBytesOf 2 v) :=
    toBytesLE_pos 2 v (by simpa using hvlt)
  by_cases hs : v = 0x1101
  · subst hs
    rw [if_pos rfl, Bool.and_eq_true] at hcfg
    obtain ⟨hclen0, _⟩ := hcfg
    have hclen' : cfg.length = 10 := of_decide_eq_true hclen0
    refine ⟨leBytesOf 2 0x1101 ++ cfg, ?_, ?_, ?_⟩
    · simp [ModelDesc.serialize, hser2]
    · simp [leBytesOf_length, ModelDesc.get_length, hclen']
    · have hrb : readBytes 2 ((leBytesOf 2 0x1101 ++ cfg) ++ rest)
          = (leBytesOf 2 0x1101, cfg ++ rest) := by
        rw [List.append_assoc]
        exact readBytes_exact 2 _ _ (leBytesOf_length 2 0x1101)
      have hrb10 : readBytes 10 (cfg ++ rest) = (cfg, rest) :=
        readBytes_exact 10 _ _ hclen'
      simp only [ModelDesc.deserialize, hrb,
        le_bytes_leBytesOf_lt 2 0x1101 (by norm_num), hrb10]
      norm_num [isModelID, ModelID_values]
  · have hemp : cfg = [] := by
      simp only [if_neg hs] at hcfg
      simpa [List.isEmpty_iff] using hcfg
    subst hemp
    refine ⟨leBytesOf 2 v ++ [], ?_, ?_, ?_⟩
    · simp [ModelDesc.serialize, hser2, hs]
    · simp [leBytesOf_length, ModelDesc.get_length]
    · have hrb : readBytes 2 ((leBytesOf 2 v ++ []) ++ rest)
          = (leBytesOf 2 v, rest) := by
        simp only [List.append_nil]
        have := readBytes_exact 2 (leBytesOf 2 v) rest (leBytesOf_length 2 v)
        simpa using this
      simp only [ModelDesc.deserialize, hrb,
        le_bytes_leBytesOf_lt 2 v (by simpa using hvlt), hv, hs]
      simp [hs]

theorem foldl_get_length_shift :
    ∀ (ds : List ModelDesc) (n : Nat),
      ds.foldl (fun a d => a + d.get_length) n
        = n + ds.foldl (fun a d => a + d.get_length) 0 := by
  intro ds
  induction ds with
  | nil => intro n; simp
  | cons d ds ih =>
    intro n
    simp only [List.foldl_cons]
    rw [ih (n + d.get_length), ih (0 + d.get_length)]
    omega

theorem model_descs_roundtrip : ∀ (ds : List ModelDesc) (rest : List Nat),
    (∀ d ∈ ds, ModelDesc.wf d = true) →
    ∃ bs, serializeModelDescs ds = some bs ∧
      read_model_descs ((ds.foldl (fun a d => a + d.get_length) 0 : Nat) : Int)
        (bs ++ rest) = .ok (ds, rest) := by
  intro ds
  induction ds with
  | nil =>
    intro rest h
    refine ⟨[], rfl, ?_⟩
    rw [read_model_descs.eq_def]
    norm_num
  | cons d ds ih =>
    intro rest h
    have hd : ModelDesc.wf d = true := h d (by simp)
    obtain ⟨bs', hser', hread'⟩ := ih rest (fun x hx => h x (by simp [hx]))
    obtain ⟨bsd, hserd, hlend, hdesd⟩ := ModelDesc_roundtrip d (bs' ++ rest) hd
    refine ⟨bsd ++ bs', ?_, ?_⟩
    · simp [serializeModelDescs, hserd, hser']
    · have hsum : ((d :: ds).foldl (fun a d => a + d.get_length) 0 : Nat)
          = d.get_length + ds.foldl (fun a d => a + d.get_length) 0 := by
        simp only [List.foldl_cons]
        rw [foldl_get_length_shift ds (0 + d.get_length)]
        omega
      have hge2 : 2 ≤ d.get_length := by unfold ModelDesc.get_length; omega
      rw [hsum, read_model_descs.eq_def,
        dif_pos (by push_cast; omega :
          (2 : Int) ≤ ((d.get_length + ds.foldl (fun a d => a + d.get_length) 0 : Nat) : Int))]
      have hds : ModelDesc.deserialize ((bsd ++ bs') ++ rest) = .ok (d, bs' ++ rest) := by
        rw [List.append_assoc]
        exact hdesd
      have harith : ((d.get_length + ds.foldl (fun a d => a + d.get_length) 0 : Nat) : Int)
          - d.get_length = ((ds.foldl (fun a d => a + d.get_length) 0 : Nat) : Int) := by
        push_cast; ring
      simp only [hds, harith, hread']


/-! ## Claim C3: per-variant decode lemmas -/

theorem rt_blob (ty : Nat) (mk : List Nat → Msg) (d : List Nat) :
    deserialize_blob ty mk (d.length :: ty :: d) = .ok (mk d) := by
  simp only [deserialize_blob]
  rw [common_part_cons, if_pos rfl]
  dsimp only
  have hrb : readBytes (d.length : Int) d = (d, []) := by
    have h := readBytes_exact d.length d [] rfl
    simpa using h
  simp [hrb]

theorem rt_enum (ty : Nat) (valid : List Nat) (mk : Nat → Msg) (st : Nat)
    (hst : valid.contains st = true) :
    deserialize_enum_field ty valid mk (0x01 :: ty :: [st]) = .ok (mk st) := by
  simp only [deserialize_enum_field]
  rw [common_part_cons, if_pos rfl]
  dsimp only
  simp [readBytes, le_bytes, List.mem_of_elem_eq_true hst]

theorem rt_mesh_response (ii si : Nat) :
    deserialize_mesh_message_response [0x02, 0x0F, ii, si]
      = .ok (.meshMessageResponse ii si) := by
  simp only [deserialize_mesh_message_response]
  rw [show ([0x02, 0x0F, ii, si] : List Nat) = 0x02 :: 0x0F :: [ii, si] from rfl,
    common_part_cons, if_pos rfl]
  dsimp only
  simp [readBytes, le_bytes]

theorem rt_fw_version (fv : List Nat) (h : 1 ≤ fv.length) :
    deserialize_firmware_version_response (fv.length :: 0x14 :: fv)
      = .ok (.firmwareVersionResponse fv) := by
  simp only [deserialize_firmware_version_response]
  rw [common_part_cons, if_pos rfl]
  dsimp only
  have hrb : readBytes (fv.length : Int) fv = (fv, []) := by
    have h2 := readBytes_exact fv.length fv [] rfl
    simpa using h2
  rw [if_neg (by omega), hrb]

theorem rt_uuid (u : List Nat) (hu : u.length = 16) :
    deserialize_device_uuid_response (16 :: 0x1B :: u)
      = .ok (.deviceUUIDResponse u) := by
  simp only [deserialize_device_uuid_response]
  rw [common_part_cons, if_pos rfl]
  dsimp only
  have hrb : readBytes 16 u = (u, []) := by
    have h2 := readBytes_exact 16 u [] (by omega)
    simpa using h2
  simp [hrb, hu]

theorem rt_sensor_update (ii pid : Nat) (d : List Nat) (hpid : pid < 65536) :
    deserialize_sensor_update_request
        ((3 + d.length) :: 0x15 :: ii :: (leBytesOf 2 pid ++ d))
      = .ok (.sensorUpdateRequest ii pid d) := by
  simp only [deserialize_sensor_update_request]
  rw [common_part_cons, if_pos rfl]
  dsimp only
  have h1 : readBytes 1 (ii :: (leBytesOf 2 pid ++ d))
      = ([ii], leBytesOf 2 pid ++ d) := by
    have h2 := readBytes_exact 1 [ii] (leBytesOf 2 pid ++ d) rfl
    simpa using h2
  have h2 : readBytes 2 (leBytesOf 2 pid ++ d) = (leBytesOf 2 pid, d) :=
    readBytes_exact 2 _ _ (leBytesOf_length 2 pid)
  have harith : ((3 + d.length : Nat) : Int) - (1 + 2) = (d.length : Int) := by
    push_cast; ring
  have h3 : readBytes ((d.length : Nat) : Int) d = (d, []) := by
    have h4 := readBytes_exact d.length d [] rfl
    simpa using h4
  simp only [h1, h2, harith, h3, le_bytes_leBytesOf_lt 2 pid (by simpa using hpid)]
  simp [le_bytes]

theorem rt_mesh_request (ii si mo : Nat) (cmd : List Nat) (hmo : mo < 65536) :
    deserialize_mesh_message_request
        ((4 + cmd.length) :: 0x07 :: ii :: si :: (leBytesOf 2 mo ++ cmd))
      = .ok (.meshMessageRequest ii si mo cmd) := by
  simp only [deserialize_mesh_message_request]
  rw [common_part_cons, if_pos rfl]
  dsimp only
  have h1 : readBytes 1 (ii :: si :: (leBytesOf 2 mo ++ cmd))
      = ([ii], si :: (leBytesOf 2 mo ++ cmd)) := by
    have h := readBytes_exact 1 [ii] (si :: (leBytesOf 2 mo ++ cmd)) rfl
    simpa using h
  have h2 : readBytes 1 (si :: (leBytesOf 2 mo ++ cmd))
      = ([si], leBytesOf 2 mo ++ cmd) := by
    have h := readBytes_exact 1 [si] (leBytesOf 2 mo ++ cmd) rfl
    simpa using h
  have h3 : readBytes 2 (leBytesOf 2 mo ++ cmd) = (leBytesOf 2 mo, cmd) :=
    readBytes_exact 2 _ _ (leBytesOf_length 2 mo)
  have harith : ((4 + cmd.length : Nat) : Int) - (1 + 1 + 2) = (cmd.length : Int) := by
    push_cast; ring
  have h4 : readBytes ((cmd.length : Nat) : Int) cmd = (cmd, []) := by
    have h := readBytes_exact cmd.length cmd [] rfl
    simpa using h
  simp only [h1, h2, h3, harith, h4, le_bytes_leBytesOf_lt 2 mo (by simpa using hmo)]
  simp [le_bytes]

theorem rt_start_test (cid tid ii : Nat) (hcid : cid < 65536) :
    deserialize_start_test_request (4 :: 0x20 :: (leBytesOf 2 cid ++ [tid, ii]))
      = .ok (.startTestRequest cid tid ii) := by
  simp only [deserialize_start_test_request]
  rw [common_part_cons, if_pos rfl]
  dsimp only
  have h1 : readBytes 2 (leBytesOf 2 cid ++ [tid, ii]) = (leBytesOf 2 cid, [tid, ii]) :=
    readBytes_exact 2 _ _ (leBytesOf_length 2 cid)
  simp only [h1, le_bytes_leBytesOf_lt 2 cid (by simpa using hcid)]
  simp [readBytes, le_bytes]

theorem rt_dfu_page_create (r : Nat) (hr : r < 4294967296) :
    deserialize_dfu_page_create_request (4 :: 0x84 :: leBytesOf 4 r)
      = .ok (.dfuPageCreateRequest r) := by
  simp only [deserialize_dfu_page_create_request]
  rw [common_part_cons, if_pos rfl]
  dsimp only
  have h1 : readBytes 4 (leBytesOf 4 r) = (leBytesOf 4 r, []) := by
    have h := readBytes_exact 4 (leBytesOf 4 r) [] (leBytesOf_length 4 r)
    simpa using h
  simp only [h1, le_bytes_leBytesOf_lt 4 r (by simpa using hr)]
  simp

theorem rt_dfu_status (st sps fo fc : Nat) (hst : DFUStatus_values.contains st = true)
    (hsps : sps < 4294967296) (hfo : fo < 4294967296) (hfc : fc < 4294967296) :
    deserialize_dfu_status_response
        (13 :: 0x83 :: st :: (leBytesOf 4 sps ++ (leBytesOf 4 fo ++ leBytesOf 4 fc)))
      = .ok (.dfuStatusResponse st sps fo fc) := by
  simp only [deserialize_dfu_status_response]
  rw [common_part_cons, if_pos rfl]
  dsimp only
  have h0 : readBytes 1 (st :: (leBytesOf 4 sps ++ (leBytesOf 4 fo ++ leBytesOf 4 fc)))
      = ([st], leBytesOf 4 sps ++ (leBytesOf 4 fo ++ leBytesOf 4 fc)) := by
    have h := readBytes_exact 1 [st]
      (leBytesOf 4 sps ++ (leBytesOf 4 fo ++ leBytesOf 4 fc)) rfl
    simpa using h
  have h1 : readBytes 4 (leBytesOf 4 sps ++ (leBytesOf 4 fo ++ leBytesOf 4 fc))
      = (leBytesOf 4 sps, leBytesOf 4 fo ++ leBytesOf 4 fc) :=
    readBytes_exact 4 _ _ (leBytesOf_length 4 sps)
  have h2 : readBytes 4 (leBytesOf 4 fo ++ leBytesOf 4 fc)
      = (leBytesOf 4 fo, leBytesOf 4 fc) :=
    readBytes_exact 4 _ _ (leBytesOf_length 4 fo)
  have h3 : readBytes 4 (leBytesOf 4 fc) = (leBytesOf 4 fc, []) := by
    have h := readBytes_exact 4 (leBytesOf 4 fc) [] (leBytesOf_length 4 fc)
    simpa using h
  simp only [h0, h1, h2, h3, le_bytes_leBytesOf_lt 4 sps (by simpa using hsps),
    le_bytes_leBytesOf_lt 4 fo (by simpa using hfo),
    le_bytes_leBytesOf_lt 4 fc (by simpa using hfc)]
  simp [le_bytes, List.mem_of_elem_eq_true hst]

theorem rt_dfu_init (fs : Nat) (sha : List Nat) (ad : List Nat)
    (hfs : fs < 4294967296) (hsha : sha.length = 32) (h255 : ad.length ≤ 218) :
    deserialize_dfu_init_request
        ((37 + ad.length) :: 0x80 :: (leBytesOf 4 fs ++ (sha ++ ad.length :: ad)))
      = .ok (.dfuInitRequest fs sha ad.length ad) := by
  simp only [deserialize_dfu_init_request]
  rw [common_part_cons, if_pos rfl]
  dsimp only
  have h1 : readBytes 4 (leBytesOf 4 fs ++ (sha ++ ad.length :: ad))
      = (leBytesOf 4 fs, sha ++ ad.length :: ad) :=
    readBytes_exact 4 _ _ (leBytesOf_length 4 fs)
  have h2 : readBytes 32 (sha ++ ad.length :: ad) = (sha, ad.length :: ad) :=
    readBytes_exact 32 _ _ hsha
  have h3 : readBytes 1 (ad.length :: ad) = ([ad.length], ad) := by
    have h := readBytes_exact 1 [ad.length] ad rfl
    simpa using h
  have harith : ((37 + ad.length : Nat) : Int) - (4 + 32 + 1) = (ad.length : Int) := by
    push_cast; ring
  have h4 : readBytes ((ad.length : Nat) : Int) ad = (ad, []) := by
    have h := readBytes_exact ad.length ad [] rfl
    simpa using h
  simp only [h1, h2, h3, harith]
  rw [le_bytes_singleton, if_neg (by omega)]
  simp only [h4, le_bytes_leBytesOf_lt 4 fs (by simpa using hfs)]
  simp

theorem rt_dfu_write (d : List Nat) (h255 : d.length ≤ 254) :
    deserialize_dfu_write_data_event ((1 + d.length) :: 0x86 :: d.length :: d)
      = .ok (.dfuWriteDataEvent d.length d) := by
  rw [dfu_write_spec]
  have ht : (d.length :: d).take 1 = [d.length] := rfl
  rw [ht, le_bytes_singleton]
  have harith : ((1 + d.length : Nat) : Int) - 1 = (d.length : Int) := by
    push_cast; ring
  rw [harith, if_neg (by omega)]
  have hd : (d.length :: d).drop 1 = d := rfl
  rw [hd]
  simp

theorem decode_model_id_list (ty : Nat) (mk : List Nat → Msg) (L : Nat)
    (body ids : List Nat)
    (hread : read_model_ids ((L : Nat) : Int) body = .ok (ids, [])) :
    deserialize_model_id_list ty mk (L :: ty :: body) = .ok (mk ids) := by
  simp only [deserialize_model_id_list]
  rw [common_part_cons, if_pos rfl]
  dsimp only
  simp [hread]

theorem decode_create_instances (L : Nat) (body : List Nat) (ds : List ModelDesc)
    (hread : read_model_descs ((L : Nat) : Int) body = .ok (ds, [])) :
    deserialize_create_instances_request (L :: 0x04 :: body)
      = .ok (.createInstancesRequest ds) := by
  simp only [deserialize_create_instances_request]
  rw [common_part_cons, if_pos rfl]
  dsimp only
  simp [hread]


/-! ## Claim C3: the round-trip theorem -/

/-- **C3, counterexample.** A `FirmwareVersionResponse` with an empty
version blob is within the declared domains (a variable-length bytes
field of length 0..255) and internally consistent, yet
`deserialize_message(serialize_message(m))` raises `InvalidLen` instead
of returning `m`: the decoder explicitly rejects LENGTH 0. -/
theorem C3_counterexample :
    serialize_message (.firmwareVersionResponse []) = some [0x00, 0x14]
      ∧ deserialize_message [0x00, 0x14] = .error .invalidLen :=
  ⟨rfl, rfl⟩

/-- **C3, amended.** For every message variant and every instance whose
fields lie within their declared size domains and are internally
consistent (internal length sub-fields equal the actual byte counts,
a `ModelDesc` carries its 10-byte configuration exactly when its
identifier is the sensor-setup value, and — as the counterexample
forces — a `FirmwareVersionResponse` carries a nonempty version blob),
`deserialize_message (serialize_message m) = m`. -/
theorem C3_theorem (m : Msg) (h : Msg.wf m = true) :
    ∃ bs, serialize_message m = some bs ∧ deserialize_message bs = .ok m := by
  cases m with
  | pingRequest d =>
    simp only [Msg.wf, Bool.and_eq_true, decide_eq_true_eq] at h
    obtain ⟨hlen, -⟩ := h
    refine ⟨d.length :: 0x01 :: d, ?_, ?_⟩
    · simp [serialize_message, Msg.get_length,
        serialize_common_spec d.length 0x01 (by omega) (by norm_num)]
    · rw [deserialize_message_cons, dw_01]
      exact rt_blob 0x01 Msg.pingRequest d
  | pongResponse d =>
    simp only [Msg.wf, Bool.and_eq_true, decide_eq_true_eq] at h
    obtain ⟨hlen, -⟩ := h
    refine ⟨d.length :: 0x02 :: d, ?_, ?_⟩
    · simp [serialize_message, Msg.get_length,
        serialize_common_spec d.length 0x02 (by omega) (by norm_num)]
    · rw [deserialize_message_cons, dw_02]
      exact rt_blob 0x02 Msg.pongResponse d
  | initDeviceEvent ids =>
    simp only [Msg.wf, Bool.and_eq_true, decide_eq_true_eq, List.all_eq_true] at h
    obtain ⟨hall, hlen⟩ := h
    obtain ⟨body, hser, hread⟩ := model_ids_roundtrip ids [] hall
    rw [List.append_nil] at hread
    refine ⟨(2 * ids.length) :: 0x03 :: body, ?_, ?_⟩
    · simp [serialize_message, Msg.get_length,
        serialize_common_spec (2 * ids.length) 0x03 (by omega) (by norm_num), hser]
    · rw [deserialize_message_cons, dw_03]
      exact decode_model_id_list 0x03 Msg.initDeviceEvent _ body ids hread
  | createInstancesResponse ids =>
    simp only [Msg.wf, Bool.and_eq_true, decide_eq_true_eq, List.all_eq_true] at h
    obtain ⟨hall, hlen⟩ := h
    obtain ⟨body, hser, hread⟩ := model_ids_roundtrip ids [] hall
    rw [List.append_nil] at hread
    refine ⟨(2 * ids.length) :: 0x05 :: body, ?_, ?_⟩
    · simp [serialize_message, Msg.get_length,
        serialize_common_spec (2 * ids.length) 0x05 (by omega) (by norm_num), hser]
    · rw [deserialize_message_cons, dw_05]
      exact decode_model_id_list 0x05 Msg.createInstancesResponse _ body ids hread
  | initNodeEvent ids =>
    simp only [Msg.wf, Bool.and_eq_true, decide_eq_true_eq, List.all_eq_true] at h
    obtain ⟨hall, hlen⟩ := h
    obtain ⟨body, hser, hread⟩ := model_ids_roundtrip ids [] hall
    rw [List.append_nil] at hread
    refine ⟨(2 * ids.length) :: 0x06 :: body, ?_, ?_⟩
    · simp [serialize_message, Msg.get_length,
        serialize_common_spec (2 * ids.length) 0x06 (by omega) (by norm_num), hser]
    · rw [deserialize_message_cons, dw_06]
      exact decode_model_id_list 0x06 Msg.initNodeEvent _ body ids hread
  | createInstancesRequest ds =>
    simp only [Msg.wf, Bool.and_eq_true, decide_eq_true_eq, List.all_eq_true] at h
    obtain ⟨hall, hlen⟩ := h
    obtain ⟨body, hser, hread⟩ := model_descs_roundtrip ds [] hall
    rw [List.append_nil] at hread
    refine ⟨(ds.foldl (fun a d => a + d.get_length) 0) :: 0x04 :: body, ?_, ?_⟩
    · simp [serialize_message, Msg.get_length,
        serialize_common_spec (ds.foldl (fun a d => a + d.get_length) 0) 0x04
          (by omega) (by norm_num), hser]
    · rw [deserialize_message_cons, dw_04]
      exact decode_create_instances _ body ds hread
  | meshMessageRequest ii si mo cmd =>
    simp only [Msg.wf, Bool.and_eq_true, decide_eq_true_eq] at h
    obtain ⟨⟨⟨⟨hii, hsi⟩, hmo⟩, hlen⟩, -⟩ := h
    have hA : toBytesLE 1 ii = some [ii] := by
      rw [toBytesLE_pos 1 ii (by simpa using hii)]
      simp [leBytesOf, Nat.mod_eq_of_lt hii]
    have hB : toBytesLE 1 si = some [si] := by
      rw [toBytesLE_pos 1 si (by simpa using hsi)]
      simp [leBytesOf, Nat.mod_eq_of_lt hsi]
    have hO : toBytesLE 2 mo = some (leBytesOf 2 mo) :=
      toBytesLE_pos 2 mo (by simpa using hmo)
    refine ⟨(4 + cmd.length) :: 0x07 :: ii :: si :: (leBytesOf 2 mo ++ cmd), ?_, ?_⟩
    · simp [serialize_message, Msg.get_length,
        serialize_common_spec (4 + cmd.length) 0x07 (by omega) (by norm_num),
        hA, hB, hO]
    · rw [deserialize_message_cons, dw_07]
      exact rt_mesh_request ii si mo cmd hmo
  | startNodeRequest => exact ⟨[0x00, 0x09], rfl, rfl⟩
  | startNodeResponse => exact ⟨[0x00, 0x0B], rfl, rfl⟩
  | factoryResetRequest => exact ⟨[0x00, 0x0C], rfl, rfl⟩
  | factoryResetResponse => exact ⟨[0x00, 0x0D], rfl, rfl⟩
  | factoryResetEvent => exact ⟨[0x00, 0x0E], rfl, rfl⟩
  | meshMessageResponse ii si =>
    simp only [Msg.wf, Bool.and_eq_true, decide_eq_true_eq] at h
    obtain ⟨hii, hsi⟩ := h
    have hA : toBytesLE 1 ii = some [ii] := by
      rw [toBytesLE_pos 1 ii (by simpa using hii)]
      simp [leBytesOf, Nat.mod_eq_of_lt hii]
    have hB : toBytesLE 1 si = some [si] := by
      rw [toBytesLE_pos 1 si (by simpa using hsi)]
      simp [leBytesOf, Nat.mod_eq_of_lt hsi]
    refine ⟨[0x02, 0x0F, ii, si], ?_, ?_⟩
    · simp [serialize_message, Msg.get_length,
        serialize_common_spec 2 0x0F (by norm_num) (by norm_num), hA, hB]
    · rw [deserialize_message_cons, dw_0F]
      exact rt_mesh_response ii si
  | currentStateRequest => exact ⟨[0x00, 0x10], rfl, rfl⟩
  | currentStateResponse st =>
    simp only [Msg.wf] at h
    have hlt : st < 256 := contains_lt ModemState_values 256 st (by decide) h
    have hA : toBytesLE 1 st = some [st] := by
      rw [toBytesLE_pos 1 st (by simpa using hlt)]
      simp [leBytesOf, Nat.mod_eq_of_lt hlt]
    refine ⟨[0x01, 0x11, st], ?_, ?_⟩
    · simp [serialize_message, Msg.get_length,
        serialize_common_spec 1 0x11 (by norm_num) (by norm_num), hA]
    · rw [deserialize_message_cons, dw_11]
      exact rt_enum 0x11 ModemState_values Msg.currentStateResponse st h
  | errorMessage e =>
    simp only [Msg.wf] at h
    have hlt : e < 256 := contains_lt Error_values 256 e (by decide) h
    have hA : toBytesLE 1 e = some [e] := by
      rw [toBytesLE_pos 1 e (by simpa using hlt)]
      simp [leBytesOf, Nat.mod_eq_of_lt hlt]
    refine ⟨[0x01, 0x12, e], ?_, ?_⟩
    · simp [serialize_message, Msg.get_length,
        serialize_common_spec 1 0x12 (by norm_num) (by norm_num), hA]
    · rw [deserialize_message_cons, dw_12]
      exact rt_enum 0x12 Error_values Msg.errorMessage e h
  | firmwareVersionRequest => exact ⟨[0x00, 0x13], rfl, rfl⟩
  | firmwareVersionResponse fv =>
    simp only [Msg.wf, Bool.and_eq_true, decide_eq_true_eq] at h
    obtain ⟨⟨h1, h2⟩, -⟩ := h
    refine ⟨fv.length :: 0x14 :: fv, ?_, ?_⟩
    · simp [serialize_message, Msg.get_length,
        serialize_common_spec fv.length 0x14 (by omega) (by norm_num)]
    · rw [deserialize_message_cons, dw_14]
      exact rt_fw_version fv h1
  | sensorUpdateRequest ii pid d =>
    simp only [Msg.wf, Bool.and_eq_true, decide_eq_true_eq] at h
    obtain ⟨⟨⟨hii, hpid⟩, hlen⟩, -⟩ := h
    have hA : toBytesLE 1 ii = some [ii] := by
      rw [toBytesLE_pos 1 ii (by simpa using hii)]
      simp [leBytesOf, Nat.mod_eq_of_lt hii]
    have hP : toBytesLE 2 pid = some (leBytesOf 2 pid) :=
      toBytesLE_pos 2 pid (by simpa using hpid)
    refine ⟨(3 + d.length) :: 0x15 :: ii :: (leBytesOf 2 pid ++ d), ?_, ?_⟩
    · simp [serialize_message, Msg.get_length,
        serialize_common_spec (3 + d.length) 0x15 (by omega) (by norm_num), hA, hP]
    · rw [deserialize_message_cons, dw_15]
      exact rt_sensor_update ii pid d hpid
  | attentionEventMessage a =>
    simp only [Msg.wf] at h
    have hlt : a < 256 := contains_lt AttentionEvent_values 256 a (by decide) h
    have hA : toBytesLE 1 a = some [a] := by
      rw [toBytesLE_pos 1 a (by simpa using hlt)]
      simp [leBytesOf, Nat.mod_eq_of_lt hlt]
    refine ⟨[0x01, 0x16, a], ?_, ?_⟩
    · simp [serialize_message, Msg.get_length,
        serialize_common_spec 1 0x16 (by norm_num) (by norm_num), hA]
    · rw [deserialize_message_cons, dw_16]
      exact rt_enum 0x16 AttentionEvent_values Msg.attentionEventMessage a h
  | softResetRequest => exact ⟨[0x00, 0x17], rfl, rfl⟩
  | softResetResponse => exact ⟨[0x00, 0x18], rfl, rfl⟩
  | sensorUpdateResponse => exact ⟨[0x00, 0x19], rfl, rfl⟩
  | deviceUUIDRequest => exact ⟨[0x00, 0x1A], rfl, rfl⟩
  | deviceUUIDResponse u =>
    simp only [Msg.wf, Bool.and_eq_true, decide_eq_true_eq] at h
    obtain ⟨hu, -⟩ := h
    refine ⟨16 :: 0x1B :: u, ?_, ?_⟩
    · simp [serialize_message, Msg.get_length,
        serialize_common_spec 16 0x1B (by norm_num) (by norm_num)]
    · rw [deserialize_message_cons, dw_1B]
      exact rt_uuid u hu
  | dfuInitRequest fs sha adl ad =>
    simp only [Msg.wf, Bool.and_eq_true, decide_eq_true_eq] at h
    obtain ⟨⟨⟨⟨⟨hfs, hsha⟩, -⟩, hadl⟩, hlen⟩, -⟩ := h
    subst hadl
    have hF : toBytesLE 4 fs = some (leBytesOf 4 fs) :=
      toBytesLE_pos 4 fs (by simpa using hfs)
    have hA : toBytesLE 1 ad.length = some [ad.length] := by
      rw [toBytesLE_pos 1 ad.length (by simp; omega)]
      simp [leBytesOf, Nat.mod_eq_of_lt (show ad.length < 256 by omega)]
    refine ⟨(37 + ad.length) :: 0x80 :: (leBytesOf 4 fs ++ (sha ++ ad.length :: ad)),
      ?_, ?_⟩
    · simp [serialize_message, Msg.get_length,
        serialize_common_spec (37 + ad.length) 0x80 (by omega) (by norm_num), hF, hA]
    · rw [deserialize_message_cons, dw_80]
      exact rt_dfu_init fs sha ad hfs hsha (by omega)
  | dfuInitResponse st =>
    simp only [Msg.wf] at h
    have hlt : st < 256 := contains_lt DFUStatus_values 256 st (by decide) h
    have hA : toBytesLE 1 st = some [st] := by
      rw [toBytesLE_pos 1 st (by simpa using hlt)]
      simp [leBytesOf, Nat.mod_eq_of_lt hlt]
    refine ⟨[0x01, 0x81, st], ?_, ?_⟩
    · simp [serialize_message, Msg.get_length,
        serialize_common_spec 1 0x81 (by norm_num) (by norm_num), hA]
    · rw [deserialize_message_cons, dw_81]
      exact rt_enum 0x81 DFUStatus_values Msg.dfuInitResponse st h
  | dfuStatusRequest => exact ⟨[0x00, 0x82], rfl, rfl⟩
  | dfuStatusResponse st sps fo fc =>
    simp only [Msg.wf, Bool.and_eq_true, decide_eq_true_eq] at h
    obtain ⟨⟨⟨hst, hsps⟩, hfo⟩, hfc⟩ := h
    have hlt : st < 256 := contains_lt DFUStatus_values 256 st (by decide) hst
    have hA : toBytesLE 1 st = some [st] := by
      rw [toBytesLE_pos 1 st (by simpa using hlt)]
      simp [leBytesOf, Nat.mod_eq_of_lt hlt]
    have hP : toBytesLE 4 sps = some (leBytesOf 4 sps) :=
      toBytesLE_pos 4 sps (by simpa using hsps)
    have hOo : toBytesLE 4 fo = some (leBytesOf 4 fo) :=
      toBytesLE_pos 4 fo (by simpa using hfo)
    have hC : toBytesLE 4 fc = some (leBytesOf 4 fc) :=
      toBytesLE_pos 4 fc (by simpa using hfc)
    refine ⟨13 :: 0x83 :: st :: (leBytesOf 4 sps ++ (leBytesOf 4 fo ++ leBytesOf 4 fc)),
      ?_, ?_⟩
    · simp [serialize_message, Msg.get_length,
        serialize_common_spec 13 0x83 (by norm_num) (by norm_num), hA, hP, hOo, hC]
    · rw [deserialize_message_cons, dw_83]
      exact rt_dfu_status st sps fo fc hst hsps hfo hfc
  | dfuPageCreateRequest r =>
    simp only [Msg.wf, decide_eq_true_eq] at h
    have hR : toBytesLE 4 r = some (leBytesOf 4 r) :=
      toBytesLE_pos 4 r (by simpa using h)
    refine ⟨4 :: 0x84 :: leBytesOf 4 r, ?_, ?_⟩
    · simp [serialize_message, Msg.get_length,
        serialize_common_spec 4 0x84 (by norm_num) (by norm_num), hR]
    · rw [deserialize_message_cons, dw_84]
      exact rt_dfu_page_create r h
  | dfuPageCreateResponse st =>
    simp only [Msg.wf] at h
    have hlt : st < 256 := contains_lt DFUStatus_values 256 st (by decide) h
    have hA : toBytesLE 1 st = some [st] := by
      rw [toBytesLE_pos 1 st (by simpa using hlt)]
      simp [leBytesOf, Nat.mod_eq_of_lt hlt]
    refine ⟨[0x01, 0x85, st], ?_, ?_⟩
    · simp [serialize_message, Msg.get_length,
        serialize_common_spec 1 0x85 (by norm_num) (by norm_num), hA]
    · rw [deserialize_message_cons, dw_85]
      exact rt_enum 0x85 DFUStatus_values Msg.dfuPageCreateResponse st h
  | dfuWriteDataEvent dl d =>
    simp only [Msg.wf, Bool.and_eq_true, decide_eq_true_eq] at h
    obtain ⟨⟨hdl, hlen⟩, -⟩ := h
    subst hdl
    have hA : toBytesLE 1 d.length = some [d.length] := by
      rw [toBytesLE_pos 1 d.length (by simp; omega)]
      simp [leBytesOf, Nat.mod_eq_of_lt (show d.length < 256 by omega)]
    refine ⟨(1 + d.length) :: 0x86 :: d.length :: d, ?_, ?_⟩
    · simp [serialize_message, Msg.get_length,
        serialize_common_spec (1 + d.length) 0x86 (by omega) (by norm_num), hA]
    · rw [deserialize_message_cons, dw_86]
      exact rt_dfu_write d (by omega)
  | dfuPageStoreRequest => exact ⟨[0x00, 0x87], rfl, rfl⟩
  | dfuPageStoreResponse st =>
    simp only [Msg.wf] at h
    have hlt : st < 256 := contains_lt DFUStatus_values 256 st (by decide) h
    have hA : toBytesLE 1 st = some [st] := by
      rw [toBytesLE_pos 1 st (by simpa using hlt)]
      simp [leBytesOf, Nat.mod_eq_of_lt hlt]
    refine ⟨[0x01, 0x88, st], ?_, ?_⟩
    · simp [serialize_message, Msg.get_length,
        serialize_common_spec 1 0x88 (by norm_num) (by norm_num), hA]
    · rw [deserialize_message_cons, dw_88]
      exact rt_enum 0x88 DFUStatus_values Msg.dfuPageStoreResponse st h
  | dfuStateRequest => exact ⟨[0x00, 0x89], rfl, rfl⟩
  | dfuStateResponse st =>
    simp only [Msg.wf] at h
    have hlt : st < 256 := contains_lt DfuStatus_values 256 st (by decide) h
    have hA : toBytesLE 1 st = some [st] := by
      rw [toBytesLE_pos 1 st (by simpa using hlt)]
      simp [leBytesOf, Nat.mod_eq_of_lt hlt]
    refine ⟨[0x01, 0x8A, st], ?_, ?_⟩
    · simp [serialize_message, Msg.get_length,
        serialize_common_spec 1 0x8A (by norm_num) (by norm_num), hA]
    · rw [deserialize_message_cons, dw_8A]
      exact rt_enum 0x8A DfuStatus_values Msg.dfuStateResponse st h
  | dfuCancelRequest => exact ⟨[0x00, 0x8B], rfl, rfl⟩
  | dfuCancelResponse => exact ⟨[0x00, 0x8C], rfl, rfl⟩
  | startTestRequest cid tid ii =>
    simp only [Msg.wf, Bool.and_eq_true, decide_eq_true_eq] at h
    obtain ⟨⟨hcid, htid⟩, hii⟩ := h
    have hA : toBytesLE 2 cid = some (leBytesOf 2 cid) :=
      toBytesLE_pos 2 cid (by simpa using hcid)
    have hB : toBytesLE 1 tid = some [tid] := by
      rw [toBytesLE_pos 1 tid (by simpa using htid)]
      simp [leBytesOf, Nat.mod_eq_of_lt htid]
    have hC : toBytesLE 1 ii = some [ii] := by
      rw [toBytesLE_pos 1 ii (by simpa using hii)]
      simp [leBytesOf, Nat.mod_eq_of_lt hii]
    refine ⟨4 :: 0x20 :: (leBytesOf 2 cid ++ [tid, ii]), ?_, ?_⟩
    · simp [serialize_message, Msg.get_length,
        serialize_common_spec 4 0x20 (by norm_num) (by norm_num), hA, hB, hC]
    · rw [deserialize_message_cons, dw_20]
      exact rt_start_test cid tid ii hcid
  | startTestResponse => exact ⟨[0x00, 0x21], rfl, rfl⟩

/-- **C3, witness.** The round trip on the repository test message: a
ping request with payload `BB`. -/
theorem C3_witness :
    ∃ bs, serialize_message (.pingRequest [0xBB]) = some bs
      ∧ deserialize_message bs = .ok (.pingRequest [0xBB]) :=
  C3_theorem (.pingRequest [0xBB]) (by decide)


end SilvairUart
